import Mathlib

/-
Verification of the gateway block processor, bridge and client handler.

The Go sources are shallowly embedded: byte slices become `List Nat`,
`big.Int` becomes `Int` (with the `Uint64`/`int64` reinterpretations made
explicit where the code performs them), 32-byte hashes become `Nat` with `0`
playing the role of the all-zero `EmptyHash`, the transaction store is a pair
of lookup functions, and Go channels become bounded FIFO lists.  The RLP and
SSZ codecs are external collaborators of the repository, so a broadcast
carries the structured envelope value itself rather than its encoded bytes.
-/

/- ## Data model (package types / bxmessage) -/

/-- Block type tag of `types.BxBlock` (`BxBlockTypeEth`, the four beacon
forks, and `BxBlockTypeUnknown`). -/
inductive BxBlockType where
  | eth
  | beaconPhase0
  | beaconAltair
  | beaconBellatrix
  | beaconCapella
  | unknown
deriving DecidableEq, Repr

/-- The four beacon cases that the Go switches enumerate explicitly. -/
def BxBlockType.isBeacon : BxBlockType → Bool
  | .beaconPhase0 | .beaconAltair | .beaconBellatrix | .beaconCapella => true
  | _ => false

/-- One transaction inside a `types.BxBlock`: a content hash plus the raw
encoded bytes.  `types.NewRawBxBlockTransaction` leaves the hash empty,
modelled as hash `0`. -/
structure BxBlockTransaction where
  hash : Nat
  content : List Nat
deriving DecidableEq, Repr

/-- `types.BxBlock`: hash, optional beacon hash (0 = empty), type tag, header
blob, transactions, trailer blob, total difficulty (`none` = nil pointer),
block number and size. -/
structure BxBlock where
  hash : Nat
  beaconHash : Nat
  blockType : BxBlockType
  header : List Nat
  txs : List BxBlockTransaction
  trailer : List Nat
  totalDifficulty : Option Int
  number : Int
  size : Int
deriving DecidableEq, Repr

/-- `bxCompressedTransaction` from services/block_processor.go. -/
structure BxCompressedTransaction where
  isFullTransaction : Bool
  transaction : List Nat
deriving DecidableEq, Repr

/-- `bxBlockRLP`: the RLP envelope for Eth blocks. -/
structure BxBlockRLP where
  header : List Nat
  txs : List BxCompressedTransaction
  trailer : List Nat
  totalDifficulty : Option Int
  number : Int
deriving DecidableEq, Repr

/-- `bxBlockSSZ`: the SSZ envelope for beacon blocks (`Number` is a `uint64`,
kept below `2 ^ 64` by the encoder). -/
structure BxBlockSSZ where
  block : List Nat
  txs : List BxCompressedTransaction
  number : Nat
deriving DecidableEq, Repr

/-- The encoded payload of a broadcast: the RLP envelope for Eth blocks or
the SSZ envelope for beacon blocks.  The byte-level codec is external, so the
payload is carried structurally. -/
inductive BroadcastPayload where
  | rlp (e : BxBlockRLP)
  | ssz (e : BxBlockSSZ)
deriving DecidableEq, Repr

/-- `bxmessage.Broadcast` as produced by `bxmessage.NewBlockBroadcast`: the
accessors `Hash`, `BeaconHash`, `BlockType`, `Block` and `ShortIDs` of the
wire message become fields. -/
structure Broadcast where
  hash : Nat
  beaconHash : Nat
  blockType : BxBlockType
  payload : BroadcastPayload
  shortIDs : List Nat
  networkNum : Nat
deriving DecidableEq, Repr

/-- A `types.BxTransaction` held by the transaction store: hash, content,
`AddTime` and its assigned short IDs. -/
structure StoredTx where
  hash : Nat
  content : List Nat
  addTime : Int
  shortIDs : List Nat
deriving DecidableEq, Repr

/-- The `TxStore` contract as consumed by the block processor: `Get` by hash
and `GetTxByShortID`; both lookups may fail. -/
structure TxStore where
  get : Nat → Option StoredTx
  getTxByShortID : Nat → Option StoredTx

/- ## Hash history and processor state -/

/-- Modelled from the spec: the Hash-History Set of section 4.A
(`services.HashHistory` is not under src/).  Each entry pairs a key with its
expiration instant `addedAt + ttl`; `Exists` holds iff some entry for the key
has `now` before that instant. -/
abbrev HashHistory := List (Nat × Int)

/-- Modelled from the spec: `HashHistory.Exists(key)` at time `now`. -/
def hashHistoryMem (h : HashHistory) (now : Int) (key : Nat) : Bool :=
  h.any fun e => e.1 == key && decide (now < e.2)

/-- Modelled from the spec: `HashHistory.Add(key, ttl)` at time `now`. -/
def hashHistoryAdd (h : HashHistory) (now : Int) (key : Nat) (ttl : Int) : HashHistory :=
  (key, now + ttl) :: h

/-- The 10-minute per-entry TTL `markProcessed` passes to `Add`, in
nanoseconds (Go durations). -/
def processedBlockTTL : Int := 600000000000

/-- The mutable state of `blockProcessor`: its `processedBlocks` history. -/
structure BlockProcessorState where
  processedBlocks : HashHistory
deriving DecidableEq, Repr

/-- `blockProcessor.ShouldProcess`: true iff the hash is not in the processed
set.  Time is threaded explicitly. -/
def ShouldProcess (st : BlockProcessorState) (now : Int) (h : Nat) : Bool :=
  ! hashHistoryMem st.processedBlocks now h

/-- `blockProcessor.markProcessed`: adds the hash for 10 minutes. -/
def markProcessed (st : BlockProcessorState) (now : Int) (h : Nat) : BlockProcessorState :=
  ⟨hashHistoryAdd st.processedBlocks now h processedBlockTTL⟩

/-- The error constants of services/block_processor.go, plus the two decode
failures (`could not decompress bad block` and an RLP/SSZ codec failure). -/
inductive BPError where
  | alreadyProcessed
  | missingShortIDs
  | unknownBlockType
  | notCompatibleBeaconBlock
  | badBlockDecompress
  | codecError
deriving DecidableEq, Repr

/- ## calcBeaconTransactionLength -/

/-- `calcBeaconTransactionLength` from services/block_processor.go.  The Go
code computes `int(new(big.Int).Sub(big(rawTx[0]), big(0xB7)).Uint64())`;
`big.Int.Uint64` returns the low 64 bits of the absolute value, and for a
byte argument the difference is below `2 ^ 63`, so the subtrahend is
`|rawTx[0] - 0xB7| + 1`. -/
def calcBeaconTransactionLength (rawTx : List Nat) : Int :=
  if rawTx.length = 0 then 0
  else
    let txLen : Int := (rawTx.length : Int) + 4
    let b := rawTx.headD 0
    if b < 0xC0 then
      if b = 0x80 then txLen - 2
      else if b > 0x80 then
        let minus : Int := (((b : Int) - 0xB7).natAbs % 2 ^ 64 : Nat)
        txLen - (minus + 1)
      else txLen
    else txLen

/- ## Compression and decompression of block transactions -/

/-- The per-transaction compression loop shared by `newRLPBlockBroadcast` and
`newSSZBlockBroadcast`: a transaction whose store entry is old enough and has
a short ID becomes a placeholder and contributes `shortIDs[0]` to the used
list; every other transaction is embedded in full. -/
def compressTxs (store : TxStore) (now minTxAge : Int) :
    List BxBlockTransaction → List BxCompressedTransaction × List Nat
  | [] => ([], [])
  | tx :: rest =>
    let r := compressTxs store now minTxAge rest
    match store.get tx.hash with
    | some s =>
      if s.addTime < now - minTxAge ∧ s.shortIDs ≠ [] then
        (⟨false, []⟩ :: r.1, s.shortIDs.headD 0 :: r.2)
      else
        (⟨true, tx.content⟩ :: r.1, r.2)
    | none => (⟨true, tx.content⟩ :: r.1, r.2)

/-- The short-ID resolution loop of `BxBlockFromBroadcast`: hits and misses,
each in input order. -/
def resolveShortIDs (store : TxStore) : List Nat → List StoredTx × List Nat
  | [] => ([], [])
  | sid :: rest =>
    let r := resolveShortIDs store rest
    match store.getTxByShortID sid with
    | some t => (t :: r.1, r.2)
    | none => (r.1, sid :: r.2)

/-- The decompression loop shared by `newBxBlockFromRLPBroadcast` and
`newBxBlockFromSSZBroadcast`: placeholders consume resolved store entries in
order (`mk` builds the block transaction from the entry: with the store hash
on the RLP side, with an empty hash on the SSZ side); running out of entries
is the `could not decompress bad block` error. -/
def decompressTxs (mk : StoredTx → BxBlockTransaction) :
    List BxCompressedTransaction → List StoredTx → Option (List BxBlockTransaction)
  | [], _ => some []
  | ctx :: rest, avail =>
    if ctx.isFullTransaction then
      (decompressTxs mk rest avail).map fun out => ⟨0, ctx.transaction⟩ :: out
    else
      match avail with
      | [] => none
      | t :: ts => (decompressTxs mk rest ts).map fun out => mk t :: out

/- ## RLP size helpers (go-ethereum rlp.ListSize / intsize) -/

/-- Byte length of a `uint64`, as go-ethereum `rlp.intsize` computes it. -/
def rlpIntSize (n : Nat) : Nat :=
  if _h : n < 256 then 1 else 1 + rlpIntSize (n / 256)
termination_by n
decreasing_by
  exact Nat.div_lt_self (by omega) (by omega)

/-- `rlp.ListSize`: content size plus the list-header size. -/
def rlpListSize (contentSize : Nat) : Nat :=
  if contentSize < 56 then 1 + contentSize else 1 + rlpIntSize contentSize + contentSize

/-- Reinterpretation of a `uint64` as an `int64`, as `big.NewInt(int64(u))`
performs it. -/
def int64OfUInt64 (u : Nat) : Int :=
  let v : Nat := u % 2 ^ 64
  if v < 2 ^ 63 then (v : Int) else (v : Int) - 2 ^ 64

/- ## Block processor: encode side -/

/-- `newRLPBlockBroadcast`: compress, wrap in the RLP envelope, and build the
broadcast with an empty beacon hash. -/
def newRLPBlockBroadcast (store : TxStore) (now : Int) (block : BxBlock)
    (networkNum : Nat) (minTxAge : Int) : Broadcast × List Nat :=
  let c := compressTxs store now minTxAge block.txs
  ({ hash := block.hash
     beaconHash := 0
     blockType := block.blockType
     payload := .rlp { header := block.header, txs := c.1, trailer := block.trailer,
                       totalDifficulty := block.totalDifficulty, number := block.number }
     shortIDs := c.2
     networkNum := networkNum }, c.2)

/-- `newSSZBlockBroadcast`: compress, wrap the trailer and transactions in
the SSZ envelope (`Number` goes through `big.Int.Uint64`), and build the
broadcast carrying the beacon hash. -/
def newSSZBlockBroadcast (store : TxStore) (now : Int) (block : BxBlock)
    (networkNum : Nat) (minTxAge : Int) : Broadcast × List Nat :=
  let c := compressTxs store now minTxAge block.txs
  ({ hash := block.hash
     beaconHash := block.beaconHash
     blockType := block.blockType
     payload := .ssz { block := block.trailer, txs := c.1,
                       number := block.number.natAbs % 2 ^ 64 }
     shortIDs := c.2
     networkNum := networkNum }, c.2)

/-- `blockProcessor.BxBlockToBroadcast`: dedup gate on the type-specific
hash, encode with the matching envelope, then mark the dedup key processed. -/
def BxBlockToBroadcast (store : TxStore) (st : BlockProcessorState) (now : Int)
    (block : BxBlock) (networkNum : Nat) (minTxAge : Int) :
    Except BPError (Broadcast × List Nat × BlockProcessorState) :=
  match block.blockType with
  | .eth =>
    if ShouldProcess st now block.hash then
      let r := newRLPBlockBroadcast store now block networkNum minTxAge
      .ok (r.1, r.2, markProcessed st now block.hash)
    else .error .alreadyProcessed
  | .unknown => .error .unknownBlockType
  | _ =>
    if ShouldProcess st now block.beaconHash then
      let r := newSSZBlockBroadcast store now block networkNum minTxAge
      .ok (r.1, r.2, markProcessed st now block.beaconHash)
    else .error .alreadyProcessed

/- ## Block processor: decode side -/

/-- The type dispatch at the top of `BxBlockFromBroadcast`: Eth broadcasts
are gated on `Hash`, beacon broadcasts first require a nonempty `BeaconHash`
and are gated on it, unknown types are rejected. -/
def broadcastGate (st : BlockProcessorState) (now : Int) (bc : Broadcast) : Option BPError :=
  match bc.blockType with
  | .eth => if ShouldProcess st now bc.hash then none else some .alreadyProcessed
  | .unknown => some .unknownBlockType
  | _ =>
    if bc.beaconHash = 0 then some .notCompatibleBeaconBlock
    else if ShouldProcess st now bc.beaconHash then none else some .alreadyProcessed

/-- `newBxBlockFromRLPBroadcast`: decompress against the resolved entries and
rebuild the block; the inflated size is
`ListSize(len(header) + ListSize(sum tx bytes) + len(trailer))`.  Each
reconstructed transaction contributes exactly its content length, so the sum
is computed over the result list. -/
def newBxBlockFromRLPBroadcast (bc : Broadcast) (e : BxBlockRLP)
    (hits : List StoredTx) : Option BxBlock :=
  (decompressTxs (fun t => ⟨t.hash, t.content⟩) e.txs hits).map fun txs =>
    let txsBytes := (txs.map fun t => t.content.length).sum
    { hash := bc.hash
      beaconHash := 0
      blockType := bc.blockType
      header := e.header
      txs := txs
      trailer := e.trailer
      totalDifficulty := e.totalDifficulty
      number := e.number
      size := (rlpListSize (e.header.length + rlpListSize txsBytes + e.trailer.length) : Int) }

/-- `newBxBlockFromSSZBroadcast`: decompress (all reconstructed transactions
are raw, with empty hashes), rebuild with a nil header and nil total
difficulty, and size `len(block) + Σ calcBeaconTransactionLength`. -/
def newBxBlockFromSSZBroadcast (bc : Broadcast) (e : BxBlockSSZ)
    (hits : List StoredTx) : Option BxBlock :=
  (decompressTxs (fun t => ⟨0, t.content⟩) e.txs hits).map fun txs =>
    let txsBytes := (txs.map fun t => calcBeaconTransactionLength t.content).sum
    { hash := bc.hash
      beaconHash := bc.beaconHash
      blockType := bc.blockType
      header := []
      txs := txs
      trailer := e.block
      totalDifficulty := none
      number := int64OfUInt64 e.number
      size := (e.block.length : Int) + txsBytes }

/-- The quadruple `BxBlockFromBroadcast` returns, mirroring the Go returns
`(block, missingShortIDs, err)` plus the processor state after the call. -/
structure FromBroadcastResult where
  block : Option BxBlock
  missing : List Nat
  err : Option BPError
  state : BlockProcessorState
deriving Repr

/-- `blockProcessor.BxBlockFromBroadcast`: gate, resolve short IDs (failing
with `MissingShortIDs` and the full miss list when any are unresolved),
decode the matching envelope, and on success mark the processed key(s) - for
beacon blocks both the execution and the beacon hash. -/
def BxBlockFromBroadcast (store : TxStore) (st : BlockProcessorState) (now : Int)
    (bc : Broadcast) : FromBroadcastResult :=
  match broadcastGate st now bc with
  | some e => ⟨none, [], some e, st⟩
  | none =>
    let r := resolveShortIDs store bc.shortIDs
    if r.2 ≠ [] then ⟨none, r.2, some .missingShortIDs, st⟩
    else
      match bc.blockType, bc.payload with
      | .eth, .rlp e =>
        match newBxBlockFromRLPBroadcast bc e r.1 with
        | none => ⟨none, [], some .badBlockDecompress, st⟩
        | some b => ⟨some b, [], none, markProcessed st now bc.hash⟩
      | .eth, .ssz _ => ⟨none, [], some .codecError, st⟩
      | .unknown, _ => ⟨none, [], some .unknownBlockType, st⟩
      | _, .ssz e =>
        match newBxBlockFromSSZBroadcast bc e r.1 with
        | none => ⟨none, [], some .badBlockDecompress, st⟩
        | some b => ⟨some b, [], none,
            markProcessed (markProcessed st now bc.hash) now bc.beaconHash⟩
      | _, .rlp _ => ⟨none, [], some .codecError, st⟩

/- ## Small concrete fixtures -/

/-- A store with no entries at all. -/
def emptyStore : TxStore := ⟨fun _ => none, fun _ => none⟩

/-- A processor whose processed set is empty. -/
def freshState : BlockProcessorState := ⟨[]⟩

/- ## C5: calcBeaconTransactionLength case table -/

/-- C5 counterexample: for the single-byte input `[0x81]` the code yields
`1 + 4 - (|0x81 - 0xB7| + 1) = -50`, while the claimed formula
`len(tx) + 4 - (firstByte - 0xB7 + 1)` yields `58`: the claim is false for a
first byte strictly between 0x80 and 0xB7. -/
theorem calcBeaconTransactionLength_claim_false :
    calcBeaconTransactionLength [0x81] = -50 ∧
    ((1 : Int) + 4 - ((0x81 : Int) - 0xB7 + 1)) = 58 ∧
    calcBeaconTransactionLength [0x81] ≠ (1 : Int) + 4 - ((0x81 : Int) - 0xB7 + 1) := by
  refine ⟨by decide, by decide, by decide⟩

/-- C5 (amended): `calcBeaconTransactionLength tx` is `0` on empty input,
`len + 4` when the first byte is at least 0xC0, `len + 4 - 2` when it equals
0x80, `len + 4 - ((b - 0xB7) + 1)` when `0xB7 ≤ b < 0xC0`, and
`len + 4 - ((0xB7 - b) + 1)` when `0x80 < b < 0xB7` (the code subtracts the
absolute difference because `big.Int.Uint64` drops the sign). -/
theorem calcBeaconTransactionLength_cases (tx : List Nat) :
    (tx.length = 0 → calcBeaconTransactionLength tx = 0) ∧
    (0xC0 ≤ tx.headD 0 → tx.length ≠ 0 →
      calcBeaconTransactionLength tx = (tx.length : Int) + 4) ∧
    (tx.headD 0 = 0x80 → tx.length ≠ 0 →
      calcBeaconTransactionLength tx = (tx.length : Int) + 4 - 2) ∧
    (0xB7 ≤ tx.headD 0 → tx.headD 0 < 0xC0 → tx.length ≠ 0 →
      calcBeaconTransactionLength tx =
        (tx.length : Int) + 4 - (((tx.headD 0 : Int) - 0xB7) + 1)) ∧
    (0x80 < tx.headD 0 → tx.headD 0 < 0xB7 → tx.length ≠ 0 →
      calcBeaconTransactionLength tx =
        (tx.length : Int) + 4 - ((0xB7 - (tx.headD 0 : Int)) + 1)) := by
  unfold calcBeaconTransactionLength
  refine ⟨fun h => by simp [h], ?_, ?_, ?_, ?_⟩
  · intro hb hne
    rw [if_neg hne, if_neg (by omega)]
  · intro hb hne
    rw [if_neg hne, if_pos (by omega), if_pos hb]
  · intro hb hb2 hne
    rw [if_neg hne, if_pos hb2, if_neg (by omega), if_pos (by omega)]
    have habs : (((tx.headD 0 : Int) - 0xB7).natAbs % 2 ^ 64 : Nat) =
        ((tx.headD 0 : Int) - 0xB7).natAbs := by
      apply Nat.mod_eq_of_lt
      have : ((tx.headD 0 : Int) - 0xB7).natAbs < 0xC0 := by omega
      omega
    rw [habs]
    have : (((tx.headD 0 : Int) - 0xB7).natAbs : Int) = (tx.headD 0 : Int) - 0xB7 := by
      omega
    rw [this]
  · intro hb hb2 hne
    rw [if_neg hne, if_pos (by omega), if_neg (by omega), if_pos (by omega)]
    have habs : (((tx.headD 0 : Int) - 0xB7).natAbs % 2 ^ 64 : Nat) =
        ((tx.headD 0 : Int) - 0xB7).natAbs := by
      apply Nat.mod_eq_of_lt
      have : ((tx.headD 0 : Int) - 0xB7).natAbs < 0xC0 := by omega
      omega
    rw [habs]
    have : (((tx.headD 0 : Int) - 0xB7).natAbs : Int) = 0xB7 - (tx.headD 0 : Int) := by
      omega
    rw [this]

/-- C5 witness: the amended case table evaluated at the four concrete shapes
of the spec's fixed-point table plus the empty input. -/
theorem calcBeaconTransactionLength_cases_witness :
    calcBeaconTransactionLength [] = 0 ∧
    calcBeaconTransactionLength [0xC0, 1, 2] = 7 ∧
    calcBeaconTransactionLength [0x80, 1] = 4 ∧
    calcBeaconTransactionLength [0xB8, 1, 2] = 5 ∧
    calcBeaconTransactionLength [0x81] = -50 := by
  refine ⟨(calcBeaconTransactionLength_cases []).1 (by decide),
    ?_, ?_, ?_, ?_⟩
  · have h := (calcBeaconTransactionLength_cases [0xC0, 1, 2]).2.1 (by decide) (by decide)
    rw [h]; decide
  · have h := (calcBeaconTransactionLength_cases [0x80, 1]).2.2.1 (by decide) (by decide)
    rw [h]; decide
  · have h := (calcBeaconTransactionLength_cases [0xB8, 1, 2]).2.2.2.1 (by decide) (by decide)
      (by decide)
    rw [h]; decide
  · have h := (calcBeaconTransactionLength_cases [0x81]).2.2.2.2 (by decide) (by decide)
      (by decide)
    rw [h]; decide

/- ## Processed-set helper lemmas -/

/-- A key just marked processed fails `ShouldProcess` at any instant before
its TTL expires. -/
theorem ShouldProcess_markProcessed_self (st : BlockProcessorState) (now1 now2 : Int)
    (k : Nat) (h : now2 < now1 + processedBlockTTL) :
    ShouldProcess (markProcessed st now1 k) now2 k = false := by
  simp [ShouldProcess, markProcessed, hashHistoryAdd, hashHistoryMem, h]

/-- The miss list of the resolution loop is exactly the unresolvable short
IDs, in input order. -/
theorem resolveShortIDs_snd (store : TxStore) (l : List Nat) :
    (resolveShortIDs store l).2 = l.filter fun sid => (store.getTxByShortID sid).isNone := by
  induction l with
  | nil => rfl
  | cons a l ih =>
    simp only [resolveShortIDs, List.filter_cons]
    cases h : store.getTxByShortID a <;> simp [h, ih]

/- ## C4: beacon broadcast with an empty beacon hash -/

/-- C4: a beacon-typed broadcast whose beacon hash is empty is rejected with
`NotCompatibleBeaconBlock`, no block is returned, and the processed set is
left unchanged. -/
theorem beaconEmptyHashRejected (store : TxStore) (st : BlockProcessorState) (now : Int)
    (bc : Broadcast) (hb : bc.blockType.isBeacon = true) (he : bc.beaconHash = 0) :
    BxBlockFromBroadcast store st now bc =
      ⟨none, [], some .notCompatibleBeaconBlock, st⟩ := by
  rcases bc with ⟨h, bh, bt, p, sids, nn⟩
  simp only at he
  subst he
  cases bt
  case eth => simp [BxBlockType.isBeacon] at hb
  case unknown => simp [BxBlockType.isBeacon] at hb
  all_goals simp [BxBlockFromBroadcast, broadcastGate]

/-- C4 witness: a concrete Capella broadcast with beacon hash 0 is rejected
and the fresh processed set stays empty. -/
theorem beaconEmptyHashRejected_witness :
    BxBlockFromBroadcast emptyStore freshState 0
        ⟨1, 0, .beaconCapella, .ssz ⟨[], [], 0⟩, [], 0⟩ =
      ⟨none, [], some .notCompatibleBeaconBlock, freshState⟩ :=
  beaconEmptyHashRejected emptyStore freshState 0 _ rfl rfl

/- ## C3: a second BxBlockToBroadcast on the same block fails -/

/-- C3: after one successful `BxBlockToBroadcast` of a block, a second call
on the same block within the 10-minute processed-entry TTL fails with
`AlreadyProcessed` - with any store, network number and minimum age. -/
theorem secondBxBlockToBroadcastFails (store store2 : TxStore)
    (st : BlockProcessorState) (now1 now2 : Int) (block : BxBlock)
    (nn nn2 : Nat) (age age2 : Int) (bc : Broadcast) (sids : List Nat)
    (st' : BlockProcessorState)
    (h : BxBlockToBroadcast store st now1 block nn age = .ok (bc, sids, st'))
    (ht : now2 < now1 + processedBlockTTL) :
    BxBlockToBroadcast store2 st' now2 block nn2 age2 = .error .alreadyProcessed := by
  rcases block with ⟨bh, bbh, bt, hd, txs, tr, td, num, sz⟩
  cases bt
  case unknown => exact Except.noConfusion h
  all_goals
    simp only [BxBlockToBroadcast] at h ⊢
    split at h
    · simp only [Except.ok.injEq, Prod.mk.injEq] at h
      obtain ⟨-, -, h3⟩ := h
      subst h3
      rw [ShouldProcess_markProcessed_self _ _ _ _ ht]
      simp
    · exact Except.noConfusion h

/-- C3 witness: encoding a concrete one-transaction Eth block on a fresh
processor succeeds with state `markProcessed freshState 0 3`, and re-encoding
the same block one time unit later fails with `AlreadyProcessed`. -/
theorem secondBxBlockToBroadcastFails_witness :
    BxBlockToBroadcast emptyStore freshState 0
        ⟨3, 0, .eth, [1], [⟨9, [2]⟩], [4], some 5, 6, 0⟩ 0 0 =
      .ok (⟨3, 0, .eth, .rlp ⟨[1], [⟨true, [2]⟩], [4], some 5, 6⟩, [], 0⟩, [],
        markProcessed freshState 0 3) ∧
    BxBlockToBroadcast emptyStore (markProcessed freshState 0 3) 1
        ⟨3, 0, .eth, [1], [⟨9, [2]⟩], [4], some 5, 6, 0⟩ 0 0 =
      .error .alreadyProcessed := by
  refine ⟨rfl, ?_⟩
  exact secondBxBlockToBroadcastFails emptyStore emptyStore freshState 0 1 _ 0 0 0 0
    ⟨3, 0, .eth, .rlp ⟨[1], [⟨true, [2]⟩], [4], some 5, 6⟩, [], 0⟩ [] _ rfl (by decide)

/- ## C2: missing short IDs -/

/-- C2 counterexample: a broadcast of unknown block type carrying an
unresolvable short ID is rejected with `UnknownBlockType` and an empty miss
list, not with `MissingShortIDs` and the list `[5]` the claim requires. -/
theorem missingShortIDs_claim_false :
    BxBlockFromBroadcast emptyStore freshState 0
        ⟨0, 0, .unknown, .rlp ⟨[], [], [], none, 0⟩, [5], 0⟩ =
      ⟨none, [], some .unknownBlockType, freshState⟩ ∧
    emptyStore.getTxByShortID 5 = none ∧
    (BPError.unknownBlockType ≠ BPError.missingShortIDs) :=
  ⟨rfl, rfl, by decide⟩

/-- C2 (amended): for every broadcast that passes the preliminary type and
deduplication checks (known block type, nonempty beacon hash for beacon
types, relevant hash not already processed), if at least one short ID is
absent from the store then `BxBlockFromBroadcast` returns no block, the
`MissingShortIDs` error, exactly the unresolvable short IDs in input order,
and leaves the state unchanged. -/
theorem missingShortIDsReported (store : TxStore) (st : BlockProcessorState)
    (now : Int) (bc : Broadcast)
    (hgate : broadcastGate st now bc = none)
    (hmiss : ∃ sid ∈ bc.shortIDs, store.getTxByShortID sid = none) :
    BxBlockFromBroadcast store st now bc =
      ⟨none, bc.shortIDs.filter (fun sid => (store.getTxByShortID sid).isNone),
        some .missingShortIDs, st⟩ := by
  obtain ⟨sid, hmem, hnone⟩ := hmiss
  have hne : (bc.shortIDs.filter fun s => (store.getTxByShortID s).isNone) ≠ [] :=
    List.ne_nil_of_mem (List.mem_filter.mpr ⟨hmem, by simp [hnone]⟩)
  simp only [BxBlockFromBroadcast, hgate, resolveShortIDs_snd]
  rw [if_pos hne]

/-- C2 witness: an Eth broadcast with short IDs `[7, 8]` against the empty
store misses both, in order, with no block and an unchanged fresh state. -/
theorem missingShortIDsReported_witness :
    (BxBlockFromBroadcast emptyStore freshState 0
        ⟨2, 0, .eth, .rlp ⟨[], [], [], none, 0⟩, [7, 8], 0⟩).missing = [7, 8] ∧
    (BxBlockFromBroadcast emptyStore freshState 0
        ⟨2, 0, .eth, .rlp ⟨[], [], [], none, 0⟩, [7, 8], 0⟩).err =
      some .missingShortIDs ∧
    (BxBlockFromBroadcast emptyStore freshState 0
        ⟨2, 0, .eth, .rlp ⟨[], [], [], none, 0⟩, [7, 8], 0⟩).block = none := by
  have h := missingShortIDsReported emptyStore freshState 0
    ⟨2, 0, .eth, .rlp ⟨[], [], [], none, 0⟩, [7, 8], 0⟩ rfl ⟨7, by decide, rfl⟩
  refine ⟨?_, ?_, ?_⟩ <;> rw [h]
  rfl

/- ## C1: block round trip -/

/-- Reinterpreting `Uint64` of a small nonnegative number recovers it. -/
theorem int64OfUInt64_natAbs (n : Int) (h1 : 0 ≤ n) (h2 : n < 2 ^ 63) :
    int64OfUInt64 (n.natAbs % 2 ^ 64) = n := by
  simp only [int64OfUInt64]
  have e1 : n.natAbs % 2 ^ 64 = n.natAbs := Nat.mod_eq_of_lt (by omega)
  rw [e1, e1, if_pos (by omega)]
  omega

/-- Core round trip of the transaction lists: compressing against a store
whose short-ID lookups agree with the compressed contents, then resolving the
used short IDs and decompressing, reproduces the content sequence. -/
theorem compress_resolve_decompress (store : TxStore) (now age : Int)
    (mk : StoredTx → BxBlockTransaction) (hmk : ∀ t, (mk t).content = t.content)
    (txs : List BxBlockTransaction)
    (hco : ∀ tx ∈ txs, ∀ s, store.get tx.hash = some s → s.shortIDs ≠ [] →
      ∃ t, store.getTxByShortID (s.shortIDs.headD 0) = some t ∧ t.content = tx.content) :
    (resolveShortIDs store (compressTxs store now age txs).2).2 = [] ∧
    ∃ out,
      decompressTxs mk (compressTxs store now age txs).1
          (resolveShortIDs store (compressTxs store now age txs).2).1 = some out ∧
      out.map (fun t => t.content) = txs.map fun t => t.content := by
  induction txs with
  | nil => exact ⟨rfl, [], rfl, rfl⟩
  | cons tx rest ih =>
    obtain ⟨hmiss, out, hdec, hmap⟩ := ih fun t ht => hco t (List.mem_cons_of_mem _ ht)
    cases hg : store.get tx.hash with
    | none =>
      constructor
      · simpa [compressTxs, hg] using hmiss
      · refine ⟨⟨0, tx.content⟩ :: out, ?_, ?_⟩
        · simp [compressTxs, hg, decompressTxs, hdec]
        · simp [hmap]
    | some s =>
      by_cases hc : s.addTime < now - age ∧ s.shortIDs ≠ []
      · obtain ⟨t, hget, hcont⟩ := hco tx (List.mem_cons_self _ _) s hg hc.2
        rw [List.headD_eq_head?] at hget
        constructor
        · simp [compressTxs, hg, hc, resolveShortIDs, hget, hmiss]
        · refine ⟨mk t :: out, ?_, ?_⟩
          · simp [compressTxs, hg, hc, resolveShortIDs, hget, decompressTxs, hdec]
          · simp [hmap, hmk, hcont]
      · constructor
        · simpa [compressTxs, hg, hc] using hmiss
        · refine ⟨⟨0, tx.content⟩ :: out, ?_, ?_⟩
          · simp [compressTxs, hg, hc, decompressTxs, hdec]
          · simp [hmap]

/-- A Bellatrix block with a nonempty header blob. -/
def beaconHeaderBlock : BxBlock := ⟨1, 2, .beaconBellatrix, [1], [], [], none, 0, 0⟩

/-- C1 counterexample: encoding `beaconHeaderBlock` on a fresh processor
succeeds using no short IDs (so the store hypothesis holds vacuously), yet
decoding the resulting broadcast on a fresh processor returns a block with an
empty header, while the original header is `[1]`: the SSZ envelope does not
carry the header, so the claim fails for beacon blocks. -/
theorem bxBlockRoundTrip_claim_false :
    BxBlockToBroadcast emptyStore freshState 0 beaconHeaderBlock 0 0 =
      .ok (⟨1, 2, .beaconBellatrix, .ssz ⟨[], [], 0⟩, [], 0⟩, [],
        markProcessed freshState 0 2) ∧
    ((BxBlockFromBroadcast emptyStore freshState 0
        ⟨1, 2, .beaconBellatrix, .ssz ⟨[], [], 0⟩, [], 0⟩).block.map fun b => b.header) =
      some [] ∧
    beaconHeaderBlock.header = [1] ∧ ([] : List Nat) ≠ [1] :=
  ⟨rfl, rfl, rfl, by decide⟩

/-- C1 (amended): if `BxBlockToBroadcast` succeeds on a fresh processor with
`minTxAge = 0` and the store returns, for every short ID it assigned, the
content of the compressed transaction, then `BxBlockFromBroadcast` on a
second fresh processor succeeds and reproduces the transaction-content
sequence and the trailer; for Eth blocks it also reproduces the header, the
number and the total difficulty, while for beacon blocks (which must carry a
nonempty beacon hash to be decodable) the reconstructed header is empty, the
total difficulty is nil, and the number is reproduced exactly when it fits in
an `int64`. -/
theorem bxBlockRoundTrip (store : TxStore) (st1 st2 : BlockProcessorState)
    (now1 now2 : Int) (block : BxBlock) (nn : Nat) (bc : Broadcast)
    (sids : List Nat) (st1' : BlockProcessorState)
    (hfresh1 : st1 = freshState) (hfresh2 : st2 = freshState)
    (hbeaconHash : block.blockType.isBeacon = true → block.beaconHash ≠ 0)
    (henc : BxBlockToBroadcast store st1 now1 block nn 0 = .ok (bc, sids, st1'))
    (hstore : ∀ tx ∈ block.txs, ∀ s, store.get tx.hash = some s → s.shortIDs ≠ [] →
      ∃ t, store.getTxByShortID (s.shortIDs.headD 0) = some t ∧ t.content = tx.content) :
    (BxBlockFromBroadcast store st2 now2 bc).err = none ∧
    ((BxBlockFromBroadcast store st2 now2 bc).block.map fun b =>
        b.txs.map fun t => t.content) = some (block.txs.map fun t => t.content) ∧
    ((BxBlockFromBroadcast store st2 now2 bc).block.map fun b => b.trailer) =
      some block.trailer ∧
    (block.blockType = .eth →
      ((BxBlockFromBroadcast store st2 now2 bc).block.map fun b => b.header) =
        some block.header ∧
      ((BxBlockFromBroadcast store st2 now2 bc).block.map fun b => b.number) =
        some block.number ∧
      ((BxBlockFromBroadcast store st2 now2 bc).block.map fun b => b.totalDifficulty) =
        some block.totalDifficulty) ∧
    (block.blockType.isBeacon = true →
      ((BxBlockFromBroadcast store st2 now2 bc).block.map fun b => b.header) = some [] ∧
      ((BxBlockFromBroadcast store st2 now2 bc).block.map fun b => b.totalDifficulty) =
        some none ∧
      (0 ≤ block.number → block.number < 2 ^ 63 →
        ((BxBlockFromBroadcast store st2 now2 bc).block.map fun b => b.number) =
          some block.number)) := by
  subst hfresh1 hfresh2
  rcases block with ⟨bh, bbh, bt, hd, txs, tr, td, num, sz⟩
  simp only at hbeaconHash hstore
  cases bt
  case unknown => exact Except.noConfusion henc
  case eth =>
    obtain ⟨hmiss, out, hdec, hmap⟩ := compress_resolve_decompress store now1 0
      (fun t => ⟨t.hash, t.content⟩) (fun _ => rfl) txs hstore
    simp only [BxBlockToBroadcast, ShouldProcess, freshState, hashHistoryMem,
      List.any_nil, Bool.not_false, if_true] at henc
    simp only [Except.ok.injEq, Prod.mk.injEq] at henc
    obtain ⟨hbc, -, -⟩ := henc
    subst hbc
    simp only [newRLPBlockBroadcast, BxBlockFromBroadcast, broadcastGate,
      ShouldProcess, freshState, hashHistoryMem, List.any_nil, Bool.not_false,
      if_true, hmiss, ne_eq, not_true_eq_false, if_false,
      newBxBlockFromRLPBroadcast, hdec, Option.map_some]
    refine ⟨rfl, by simp [hmap], rfl, fun _ => ⟨rfl, rfl, rfl⟩, fun hb => ?_⟩
    simp [BxBlockType.isBeacon] at hb
  all_goals
    obtain ⟨hmiss, out, hdec, hmap⟩ := compress_resolve_decompress store now1 0
      (fun t => ⟨0, t.content⟩) (fun _ => rfl) txs hstore
    have hbh : bbh ≠ 0 := hbeaconHash rfl
    simp only [BxBlockToBroadcast, ShouldProcess, freshState, hashHistoryMem,
      List.any_nil, Bool.not_false, if_true] at henc
    simp only [Except.ok.injEq, Prod.mk.injEq] at henc
    obtain ⟨hbc, -, -⟩ := henc
    subst hbc
    simp only [newSSZBlockBroadcast, BxBlockFromBroadcast, broadcastGate,
      ShouldProcess, freshState, hashHistoryMem, List.any_nil, Bool.not_false,
      if_true, hbh, if_false, hmiss, ne_eq, not_true_eq_false,
      newBxBlockFromSSZBroadcast, hdec, Option.map_some]
    refine ⟨rfl, by simp [hmap], rfl, fun he => BxBlockType.noConfusion he,
      fun _ => ⟨rfl, rfl, fun h1 h2 => ?_⟩⟩
    simpa using int64OfUInt64_natAbs num h1 h2

/-- C1 witness: a one-transaction Eth block encoded on a fresh processor with
the empty store (no compression) decodes on a second fresh processor to the
original contents, header, trailer, number and total difficulty. -/
theorem bxBlockRoundTrip_witness :
    (BxBlockFromBroadcast emptyStore freshState 9
        ⟨3, 0, .eth, .rlp ⟨[1], [⟨true, [2]⟩], [4], some 5, 6⟩, [], 0⟩).err = none ∧
    ((BxBlockFromBroadcast emptyStore freshState 9
        ⟨3, 0, .eth, .rlp ⟨[1], [⟨true, [2]⟩], [4], some 5, 6⟩, [], 0⟩).block.map fun b =>
        b.txs.map fun t => t.content) = some [[2]] ∧
    ((BxBlockFromBroadcast emptyStore freshState 9
        ⟨3, 0, .eth, .rlp ⟨[1], [⟨true, [2]⟩], [4], some 5, 6⟩, [], 0⟩).block.map fun b =>
        b.trailer) = some [4] ∧
    ((BxBlockFromBroadcast emptyStore freshState 9
        ⟨3, 0, .eth, .rlp ⟨[1], [⟨true, [2]⟩], [4], some 5, 6⟩, [], 0⟩).block.map fun b =>
        b.header) = some [1] ∧
    ((BxBlockFromBroadcast emptyStore freshState 9
        ⟨3, 0, .eth, .rlp ⟨[1], [⟨true, [2]⟩], [4], some 5, 6⟩, [], 0⟩).block.map fun b =>
        b.number) = some 6 ∧
    ((BxBlockFromBroadcast emptyStore freshState 9
        ⟨3, 0, .eth, .rlp ⟨[1], [⟨true, [2]⟩], [4], some 5, 6⟩, [], 0⟩).block.map fun b =>
        b.totalDifficulty) = some (some 5) := by
  have h := bxBlockRoundTrip emptyStore freshState freshState 0 9
    ⟨3, 0, .eth, [1], [⟨9, [2]⟩], [4], some 5, 6, 0⟩ 0
    ⟨3, 0, .eth, .rlp ⟨[1], [⟨true, [2]⟩], [4], some 5, 6⟩, [], 0⟩ []
    (markProcessed freshState 0 3) rfl rfl
    (by intro hb; simp [BxBlockType.isBeacon] at hb) rfl
    (by intro tx htx s hs; simp [emptyStore] at hs)
  obtain ⟨h1, h2, h3, h4, -⟩ := h
  obtain ⟨h41, h42, h43⟩ := h4 rfl
  exact ⟨h1, h2, h3, h41, h42, h43⟩

/- ## Bridge (blockchain/bridge.go, embedded from src/test/utils.go) -/

/-- `transactionBacklog`. -/
def transactionBacklog : Nat := 2000

/-- `transactionHashesBacklog`. -/
def transactionHashesBacklog : Nat := 1000

/-- `blockBacklog`. -/
def blockBacklog : Nat := 100

/-- `statusBacklog`. -/
def statusBacklog : Nat := 10

/-- `BxBridge`: each Go channel becomes a bounded FIFO list (front = next to
be received).  Payload types that the claims never inspect (configs,
transaction batches, endpoints, statuses) are opaque `Nat`; the two
blocks-from-BDN channels carry `BxBlock` and the node-block channels carry a
block paired with its peer endpoint. -/
structure BxBridge where
  beaconBlock : Bool
  config : List Nat
  transactionsFromNode : List Nat
  transactionsFromBDN : List Nat
  transactionHashesFromNode : List Nat
  transactionHashesRequests : List Nat
  blocksFromNode : List (BxBlock × Nat)
  ethBlocksFromBDN : List BxBlock
  beaconBlocksFromBDN : List BxBlock
  confirmedBlockFromNode : List (BxBlock × Nat)
  noActiveBlockchainPeers : List Unit
  blockchainStatusRequest : List Unit
  blockchainStatusResponse : List (List Nat)
  nodeConnectionCheckRequest : List Unit
  nodeConnectionCheckResponse : List Nat
  blockchainConnectionStatus : List Nat
  disconnectEvent : List Nat
  validatorInfo : List Nat
deriving DecidableEq, Repr

/-- `NewBxBridge`: all channels empty; capacities are fixed per operation. -/
def NewBxBridge (beaconBlock : Bool) : BxBridge :=
  { beaconBlock := beaconBlock, config := [], transactionsFromNode := [],
    transactionsFromBDN := [], transactionHashesFromNode := [],
    transactionHashesRequests := [], blocksFromNode := [], ethBlocksFromBDN := [],
    beaconBlocksFromBDN := [], confirmedBlockFromNode := [],
    noActiveBlockchainPeers := [], blockchainStatusRequest := [],
    blockchainStatusResponse := [], nodeConnectionCheckRequest := [],
    nodeConnectionCheckResponse := [], blockchainConnectionStatus := [],
    disconnectEvent := [], validatorInfo := [] }

/-- Outcome of a bridge operation: success, the `ErrChannelFull` error of a
select/default send, a goroutine blocked on an unconditional send, or the
type error of `SendBlockToNode`. -/
inductive BridgeOutcome where
  | ok
  | channelFull
  | blocked
  | typeError
deriving DecidableEq, Repr

/-- A select/default send on a channel with buffer capacity `cap`: enqueue if
there is room, otherwise fail (Go `select { case ch <- x: default: }`). -/
def trySendList (cap : Nat) (q : List α) (x : α) : Option (List α) :=
  if q.length < cap then some (q ++ [x]) else none

/-- `trySendList` on a saturated queue fails. -/
theorem trySendList_full (cap : Nat) (q : List α) (x : α) (h : cap ≤ q.length) :
    trySendList cap q x = none := by
  simp only [trySendList]
  rw [if_neg (by omega)]

/-- `trySendList` with room succeeds and appends. -/
theorem trySendList_space (cap : Nat) (q : List α) (x : α) (h : q.length < cap) :
    trySendList cap q x = some (q ++ [x]) := by
  simp [trySendList, h]

/-- `UpdateNetworkConfig`: the Go body is the unconditional send
`b.config <- config`, so on a full capacity-1 buffer the caller blocks
instead of receiving `ErrChannelFull`. -/
def UpdateNetworkConfig (b : BxBridge) (c : Nat) : BridgeOutcome × BxBridge :=
  if b.config.length < 1 then (.ok, { b with config := b.config ++ [c] })
  else (.blocked, b)

/-- `ReceiveNetworkConfigUpdates`: one receive from the config channel. -/
def ReceiveNetworkConfigUpdates (b : BxBridge) : Option (Nat × BxBridge) :=
  match b.config with
  | [] => none
  | x :: xs => some (x, { b with config := xs })

/-- `AnnounceTransactionHashes`: select/default send onto the capacity-1000
announcements channel. -/
def AnnounceTransactionHashes (b : BxBridge) (a : Nat) : BridgeOutcome × BxBridge :=
  match trySendList transactionHashesBacklog b.transactionHashesFromNode a with
  | some q => (.ok, { b with transactionHashesFromNode := q })
  | none => (.channelFull, b)

/-- `ReceiveTransactionHashesAnnouncement`: one receive from the
announcements channel. -/
def ReceiveTransactionHashesAnnouncement (b : BxBridge) : Option (Nat × BxBridge) :=
  match b.transactionHashesFromNode with
  | [] => none
  | x :: xs => some (x, { b with transactionHashesFromNode := xs })

/-- `RequestTransactionsFromNode`: select/default send, capacity 1000. -/
def RequestTransactionsFromNode (b : BxBridge) (a : Nat) : BridgeOutcome × BxBridge :=
  match trySendList transactionHashesBacklog b.transactionHashesRequests a with
  | some q => (.ok, { b with transactionHashesRequests := q })
  | none => (.channelFull, b)

/-- `SendTransactionsFromBDN`: select/default send, capacity 2000. -/
def SendTransactionsFromBDN (b : BxBridge) (txs : Nat) : BridgeOutcome × BxBridge :=
  match trySendList transactionBacklog b.transactionsFromBDN txs with
  | some q => (.ok, { b with transactionsFromBDN := q })
  | none => (.channelFull, b)

/-- `SendTransactionsToBDN`: select/default send, capacity 2000. -/
def SendTransactionsToBDN (b : BxBridge) (txs : Nat) : BridgeOutcome × BxBridge :=
  match trySendList transactionBacklog b.transactionsFromNode txs with
  | some q => (.ok, { b with transactionsFromNode := q })
  | none => (.channelFull, b)

/-- `SendBlockToBDN`: select/default send, capacity 100. -/
def SendBlockToBDN (b : BxBridge) (blk : BxBlock) (peer : Nat) : BridgeOutcome × BxBridge :=
  match trySendList blockBacklog b.blocksFromNode (blk, peer) with
  | some q => (.ok, { b with blocksFromNode := q })
  | none => (.channelFull, b)

/-- `SendConfirmedBlockToGateway`: select/default send, capacity 100. -/
def SendConfirmedBlockToGateway (b : BxBridge) (blk : BxBlock) (peer : Nat) :
    BridgeOutcome × BxBridge :=
  match trySendList blockBacklog b.confirmedBlockFromNode (blk, peer) with
  | some q => (.ok, { b with confirmedBlockFromNode := q })
  | none => (.channelFull, b)

/-- `SendNoActiveBlockchainPeersAlert`: select/default send on the
unbuffered alert channel (capacity 0: without a concurrently waiting
receiver the default branch fires). -/
def SendNoActiveBlockchainPeersAlert (b : BxBridge) : BridgeOutcome × BxBridge :=
  match trySendList 0 b.noActiveBlockchainPeers () with
  | some q => (.ok, { b with noActiveBlockchainPeers := q })
  | none => (.channelFull, b)

/-- `SendBlockchainStatusRequest`: select/default send, capacity 10. -/
def SendBlockchainStatusRequest (b : BxBridge) : BridgeOutcome × BxBridge :=
  match trySendList statusBacklog b.blockchainStatusRequest () with
  | some q => (.ok, { b with blockchainStatusRequest := q })
  | none => (.channelFull, b)

/-- `SendBlockchainStatusResponse`: select/default send, capacity 10. -/
def SendBlockchainStatusResponse (b : BxBridge) (endpoints : List Nat) :
    BridgeOutcome × BxBridge :=
  match trySendList statusBacklog b.blockchainStatusResponse endpoints with
  | some q => (.ok, { b with blockchainStatusResponse := q })
  | none => (.channelFull, b)

/-- `SendNodeConnectionCheckRequest`: select/default send, capacity 10. -/
def SendNodeConnectionCheckRequest (b : BxBridge) : BridgeOutcome × BxBridge :=
  match trySendList statusBacklog b.nodeConnectionCheckRequest () with
  | some q => (.ok, { b with nodeConnectionCheckRequest := q })
  | none => (.channelFull, b)

/-- `SendNodeConnectionCheckResponse`: select/default send, capacity 10. -/
def SendNodeConnectionCheckResponse (b : BxBridge) (endpoint : Nat) :
    BridgeOutcome × BxBridge :=
  match trySendList statusBacklog b.nodeConnectionCheckResponse endpoint with
  | some q => (.ok, { b with nodeConnectionCheckResponse := q })
  | none => (.channelFull, b)

/-- `SendValidatorListInfo`: select/default send, capacity 1. -/
def SendValidatorListInfo (b : BxBridge) (info : Nat) : BridgeOutcome × BxBridge :=
  match trySendList 1 b.validatorInfo info with
  | some q => (.ok, { b with validatorInfo := q })
  | none => (.channelFull, b)

/-- `SendBlockchainConnectionStatus`: select/default send, capacity 2000. -/
def SendBlockchainConnectionStatus (b : BxBridge) (connStatus : Nat) :
    BridgeOutcome × BxBridge :=
  match trySendList transactionBacklog b.blockchainConnectionStatus connStatus with
  | some q => (.ok, { b with blockchainConnectionStatus := q })
  | none => (.channelFull, b)

/-- `SendDisconnectEvent`: select/default send, capacity 10. -/
def SendDisconnectEvent (b : BxBridge) (endpoint : Nat) : BridgeOutcome × BxBridge :=
  match trySendList statusBacklog b.disconnectEvent endpoint with
  | some q => (.ok, { b with disconnectEvent := q })
  | none => (.channelFull, b)

/-- `SendBlockToNode`: Eth blocks go to the eth channel; beacon blocks are
silently dropped unless the bridge was built with `beaconBlock = true`, else
go to the beacon channel; other types are a type error. -/
def SendBlockToNode (b : BxBridge) (blk : BxBlock) : BridgeOutcome × BxBridge :=
  match blk.blockType with
  | .eth =>
    match trySendList blockBacklog b.ethBlocksFromBDN blk with
    | some q => (.ok, { b with ethBlocksFromBDN := q })
    | none => (.channelFull, b)
  | .unknown => (.typeError, b)
  | _ =>
    if ! b.beaconBlock then (.ok, b)
    else
      match trySendList blockBacklog b.beaconBlocksFromBDN blk with
      | some q => (.ok, { b with beaconBlocksFromBDN := q })
      | none => (.channelFull, b)

/- ## Bridge receives (one channel read each) -/

/-- `ReceiveTransactionHashesRequest`: one receive from the requests
channel. -/
def ReceiveTransactionHashesRequest (b : BxBridge) : Option (Nat × BxBridge) :=
  match b.transactionHashesRequests with
  | [] => none
  | z :: zs => some (z, { b with transactionHashesRequests := zs })

/-- `ReceiveBDNTransactions`: one receive from the txs-from-BDN channel. -/
def ReceiveBDNTransactions (b : BxBridge) : Option (Nat × BxBridge) :=
  match b.transactionsFromBDN with
  | [] => none
  | z :: zs => some (z, { b with transactionsFromBDN := zs })

/-- `ReceiveNodeTransactions`: one receive from the txs-from-node channel. -/
def ReceiveNodeTransactions (b : BxBridge) : Option (Nat × BxBridge) :=
  match b.transactionsFromNode with
  | [] => none
  | z :: zs => some (z, { b with transactionsFromNode := zs })

/-- `ReceiveBlockFromNode`: one receive from the blocks-from-node channel. -/
def ReceiveBlockFromNode (b : BxBridge) : Option ((BxBlock × Nat) × BxBridge) :=
  match b.blocksFromNode with
  | [] => none
  | z :: zs => some (z, { b with blocksFromNode := zs })

/-- `ReceiveConfirmedBlockFromNode`: one receive from the confirmed-blocks
channel. -/
def ReceiveConfirmedBlockFromNode (b : BxBridge) : Option ((BxBlock × Nat) × BxBridge) :=
  match b.confirmedBlockFromNode with
  | [] => none
  | z :: zs => some (z, { b with confirmedBlockFromNode := zs })

/-- `ReceiveNoActiveBlockchainPeersAlert`: one receive from the (unbuffered)
alert channel. -/
def ReceiveNoActiveBlockchainPeersAlert (b : BxBridge) : Option (Unit × BxBridge) :=
  match b.noActiveBlockchainPeers with
  | [] => none
  | z :: zs => some (z, { b with noActiveBlockchainPeers := zs })

/-- `ReceiveBlockchainStatusRequest`: one receive from the status-request
channel. -/
def ReceiveBlockchainStatusRequest (b : BxBridge) : Option (Unit × BxBridge) :=
  match b.blockchainStatusRequest with
  | [] => none
  | z :: zs => some (z, { b with blockchainStatusRequest := zs })

/-- `ReceiveBlockchainStatusResponse`: one receive from the status-response
channel. -/
def ReceiveBlockchainStatusResponse (b : BxBridge) : Option (List Nat × BxBridge) :=
  match b.blockchainStatusResponse with
  | [] => none
  | z :: zs => some (z, { b with blockchainStatusResponse := zs })

/-- `ReceiveNodeConnectionCheckRequest`: one receive from the check-request
channel. -/
def ReceiveNodeConnectionCheckRequest (b : BxBridge) : Option (Unit × BxBridge) :=
  match b.nodeConnectionCheckRequest with
  | [] => none
  | z :: zs => some (z, { b with nodeConnectionCheckRequest := zs })

/-- `ReceiveNodeConnectionCheckResponse`: one receive from the check-response
channel. -/
def ReceiveNodeConnectionCheckResponse (b : BxBridge) : Option (Nat × BxBridge) :=
  match b.nodeConnectionCheckResponse with
  | [] => none
  | z :: zs => some (z, { b with nodeConnectionCheckResponse := zs })

/-- `ReceiveValidatorListInfo`: one receive from the validator-info
channel. -/
def ReceiveValidatorListInfo (b : BxBridge) : Option (Nat × BxBridge) :=
  match b.validatorInfo with
  | [] => none
  | z :: zs => some (z, { b with validatorInfo := zs })

/-- `ReceiveBlockchainConnectionStatus`: one receive from the
connection-status channel. -/
def ReceiveBlockchainConnectionStatus (b : BxBridge) : Option (Nat × BxBridge) :=
  match b.blockchainConnectionStatus with
  | [] => none
  | z :: zs => some (z, { b with blockchainConnectionStatus := zs })

/-- `ReceiveDisconnectEvent`: one receive from the disconnect channel. -/
def ReceiveDisconnectEvent (b : BxBridge) : Option (Nat × BxBridge) :=
  match b.disconnectEvent with
  | [] => none
  | z :: zs => some (z, { b with disconnectEvent := zs })

/- ## C6: non-blocking sends vs the blocking UpdateNetworkConfig -/

/-- A bridge whose config channel already holds its one permitted element. -/
def bridgeWithFullConfig : BxBridge := { NewBxBridge false with config := [0] }

/-- C6 counterexample: with the capacity-1 config queue full,
`UpdateNetworkConfig` blocks (the Go body is an unconditional channel send)
instead of returning `ChannelFull`. -/
theorem updateNetworkConfig_claim_false :
    UpdateNetworkConfig bridgeWithFullConfig 7 = (.blocked, bridgeWithFullConfig) ∧
    (UpdateNetworkConfig bridgeWithFullConfig 7).1 ≠ .channelFull :=
  ⟨rfl, by decide⟩

/-- The non-blocking enqueue contract of one bridge channel with capacity
`cap`, queue projection `f`, one enqueue `send` and one receive `recv`: a
send on a queue at (or beyond) capacity returns `ChannelFull` with the bridge
unchanged, a send below capacity succeeds, and after one element is received
from a queue at capacity one subsequent send succeeds. -/
def NonBlockingEnqueue {γ : Type} (cap : Nat) (f : BxBridge → List γ)
    (send : BxBridge → BridgeOutcome × BxBridge)
    (recv : BxBridge → Option (γ × BxBridge)) (b : BxBridge) : Prop :=
  (cap ≤ (f b).length → send b = (.channelFull, b)) ∧
  ((f b).length < cap → (send b).1 = .ok) ∧
  ((f b).length = cap → ∀ y b2, recv b = some (y, b2) → (send b2).1 = .ok)

/-- A send that fails exactly on a saturated queue, together with a receive
that shortens the queue by one, satisfies `NonBlockingEnqueue`. -/
theorem nonBlockingEnqueue_of {γ : Type} (cap : Nat)
    (f : BxBridge → List γ)
    (send : BxBridge → BridgeOutcome × BxBridge)
    (recv : BxBridge → Option (γ × BxBridge))
    (hfull : ∀ br, cap ≤ (f br).length → send br = (.channelFull, br))
    (hok : ∀ br, (f br).length < cap → (send br).1 = .ok)
    (hpop : ∀ br y b2, recv br = some (y, b2) → (f b2).length + 1 = (f br).length)
    (b : BxBridge) : NonBlockingEnqueue cap f send recv b := by
  unfold NonBlockingEnqueue
  refine ⟨hfull b, hok b, ?_⟩
  intro hcap y b2 hr
  have hlen := hpop b y b2 hr
  exact hok b2 (by omega)

/-- C6 (amended): every select/default Bridge enqueue -
`AnnounceTransactionHashes`, `RequestTransactionsFromNode`,
`SendTransactionsFromBDN`, `SendTransactionsToBDN`, `SendBlockToBDN`,
`SendConfirmedBlockToGateway`, `SendNoActiveBlockchainPeersAlert`,
`SendBlockchainStatusRequest`, `SendBlockchainStatusResponse`,
`SendNodeConnectionCheckRequest`, `SendNodeConnectionCheckResponse`,
`SendValidatorListInfo`, `SendBlockchainConnectionStatus`,
`SendDisconnectEvent` - returns `ChannelFull`, with the bridge unchanged,
exactly when its queue is at capacity (a send below capacity succeeds), and
after one element is received from a full queue one subsequent enqueue
succeeds.  `UpdateNetworkConfig` alone is an unconditional channel send: on a
full capacity-1 queue it blocks rather than returning `ChannelFull`; it
succeeds on the empty queue, including after one receive. -/
theorem bridgeSendBehaviour (b : BxBridge) (x : Nat) (blk : BxBlock) (eps : List Nat) :
    NonBlockingEnqueue transactionHashesBacklog (fun br => br.transactionHashesFromNode)
      (fun br => AnnounceTransactionHashes br x)
      ReceiveTransactionHashesAnnouncement b ∧
    NonBlockingEnqueue transactionHashesBacklog (fun br => br.transactionHashesRequests)
      (fun br => RequestTransactionsFromNode br x)
      ReceiveTransactionHashesRequest b ∧
    NonBlockingEnqueue transactionBacklog (fun br => br.transactionsFromBDN)
      (fun br => SendTransactionsFromBDN br x) ReceiveBDNTransactions b ∧
    NonBlockingEnqueue transactionBacklog (fun br => br.transactionsFromNode)
      (fun br => SendTransactionsToBDN br x) ReceiveNodeTransactions b ∧
    NonBlockingEnqueue blockBacklog (fun br => br.blocksFromNode)
      (fun br => SendBlockToBDN br blk x) ReceiveBlockFromNode b ∧
    NonBlockingEnqueue blockBacklog (fun br => br.confirmedBlockFromNode)
      (fun br => SendConfirmedBlockToGateway br blk x)
      ReceiveConfirmedBlockFromNode b ∧
    NonBlockingEnqueue 0 (fun br => br.noActiveBlockchainPeers)
      (fun br => SendNoActiveBlockchainPeersAlert br)
      ReceiveNoActiveBlockchainPeersAlert b ∧
    NonBlockingEnqueue statusBacklog (fun br => br.blockchainStatusRequest)
      (fun br => SendBlockchainStatusRequest br) ReceiveBlockchainStatusRequest b ∧
    NonBlockingEnqueue statusBacklog (fun br => br.blockchainStatusResponse)
      (fun br => SendBlockchainStatusResponse br eps)
      ReceiveBlockchainStatusResponse b ∧
    NonBlockingEnqueue statusBacklog (fun br => br.nodeConnectionCheckRequest)
      (fun br => SendNodeConnectionCheckRequest br)
      ReceiveNodeConnectionCheckRequest b ∧
    NonBlockingEnqueue statusBacklog (fun br => br.nodeConnectionCheckResponse)
      (fun br => SendNodeConnectionCheckResponse br x)
      ReceiveNodeConnectionCheckResponse b ∧
    NonBlockingEnqueue 1 (fun br => br.validatorInfo)
      (fun br => SendValidatorListInfo br x) ReceiveValidatorListInfo b ∧
    NonBlockingEnqueue transactionBacklog (fun br => br.blockchainConnectionStatus)
      (fun br => SendBlockchainConnectionStatus br x)
      ReceiveBlockchainConnectionStatus b ∧
    NonBlockingEnqueue statusBacklog (fun br => br.disconnectEvent)
      (fun br => SendDisconnectEvent br x) ReceiveDisconnectEvent b ∧
    (1 ≤ b.config.length → UpdateNetworkConfig b x = (.blocked, b)) ∧
    (b.config.length = 0 → (UpdateNetworkConfig b x).1 = .ok) ∧
    (b.config.length = 1 → ∀ y b2, ReceiveNetworkConfigUpdates b = some (y, b2) →
      (UpdateNetworkConfig b2 x).1 = .ok) := by
  refine ⟨?_, ?_, ?_, ?_, ?_, ?_, ?_, ?_, ?_, ?_, ?_, ?_, ?_, ?_, ?_, ?_, ?_⟩
  · exact nonBlockingEnqueue_of transactionHashesBacklog
      (fun br => br.transactionHashesFromNode)
      (fun br => AnnounceTransactionHashes br x) ReceiveTransactionHashesAnnouncement
      (fun br hf => by simp [AnnounceTransactionHashes, trySendList_full _ _ _ hf])
      (fun br hr => by simp [AnnounceTransactionHashes, trySendList_space _ _ _ hr])
      (fun br y b2 hr => by
        cases hq : br.transactionHashesFromNode with
        | nil => simp [ReceiveTransactionHashesAnnouncement, hq] at hr
        | cons z zs =>
          simp only [ReceiveTransactionHashesAnnouncement, hq, Option.some.injEq, Prod.mk.injEq] at hr
          obtain ⟨-, hb2⟩ := hr
          subst hb2
          simp [hq]) b
  · exact nonBlockingEnqueue_of transactionHashesBacklog
      (fun br => br.transactionHashesRequests)
      (fun br => RequestTransactionsFromNode br x) ReceiveTransactionHashesRequest
      (fun br hf => by simp [RequestTransactionsFromNode, trySendList_full _ _ _ hf])
      (fun br hr => by simp [RequestTransactionsFromNode, trySendList_space _ _ _ hr])
      (fun br y b2 hr => by
        cases hq : br.transactionHashesRequests with
        | nil => simp [ReceiveTransactionHashesRequest, hq] at hr
        | cons z zs =>
          simp only [ReceiveTransactionHashesRequest, hq, Option.some.injEq, Prod.mk.injEq] at hr
          obtain ⟨-, hb2⟩ := hr
          subst hb2
          simp [hq]) b
  · exact nonBlockingEnqueue_of transactionBacklog
      (fun br => br.transactionsFromBDN)
      (fun br => SendTransactionsFromBDN br x) ReceiveBDNTransactions
      (fun br hf => by simp [SendTransactionsFromBDN, trySendList_full _ _ _ hf])
      (fun br hr => by simp [SendTransactionsFromBDN, trySendList_space _ _ _ hr])
      (fun br y b2 hr => by
        cases hq : br.transactionsFromBDN with
        | nil => simp [ReceiveBDNTransactions, hq] at hr
        | cons z zs =>
          simp only [ReceiveBDNTransactions, hq, Option.some.injEq, Prod.mk.injEq] at hr
          obtain ⟨-, hb2⟩ := hr
          subst hb2
          simp [hq]) b
  · exact nonBlockingEnqueue_of transactionBacklog
      (fun br => br.transactionsFromNode)
      (fun br => SendTransactionsToBDN br x) ReceiveNodeTransactions
      (fun br hf => by simp [SendTransactionsToBDN, trySendList_full _ _ _ hf])
      (fun br hr => by simp [SendTransactionsToBDN, trySendList_space _ _ _ hr])
      (fun br y b2 hr => by
        cases hq : br.transactionsFromNode with
        | nil => simp [ReceiveNodeTransactions, hq] at hr
        | cons z zs =>
          simp only [ReceiveNodeTransactions, hq, Option.some.injEq, Prod.mk.injEq] at hr
          obtain ⟨-, hb2⟩ := hr
          subst hb2
          simp [hq]) b
  · exact nonBlockingEnqueue_of blockBacklog
      (fun br => br.blocksFromNode)
      (fun br => SendBlockToBDN br blk x) ReceiveBlockFromNode
      (fun br hf => by simp [SendBlockToBDN, trySendList_full _ _ _ hf])
      (fun br hr => by simp [SendBlockToBDN, trySendList_space _ _ _ hr])
      (fun br y b2 hr => by
        cases hq : br.blocksFromNode with
        | nil => simp [ReceiveBlockFromNode, hq] at hr
        | cons z zs =>
          simp only [ReceiveBlockFromNode, hq, Option.some.injEq, Prod.mk.injEq] at hr
          obtain ⟨-, hb2⟩ := hr
          subst hb2
          simp [hq]) b
  · exact nonBlockingEnqueue_of blockBacklog
      (fun br => br.confirmedBlockFromNode)
      (fun br => SendConfirmedBlockToGateway br blk x) ReceiveConfirmedBlockFromNode
      (fun br hf => by simp [SendConfirmedBlockToGateway, trySendList_full _ _ _ hf])
      (fun br hr => by simp [SendConfirmedBlockToGateway, trySendList_space _ _ _ hr])
      (fun br y b2 hr => by
        cases hq : br.confirmedBlockFromNode with
        | nil => simp [ReceiveConfirmedBlockFromNode, hq] at hr
        | cons z zs =>
          simp only [ReceiveConfirmedBlockFromNode, hq, Option.some.injEq, Prod.mk.injEq] at hr
          obtain ⟨-, hb2⟩ := hr
          subst hb2
          simp [hq]) b
  · exact nonBlockingEnqueue_of 0
      (fun br => br.noActiveBlockchainPeers)
      (fun br => SendNoActiveBlockchainPeersAlert br) ReceiveNoActiveBlockchainPeersAlert
      (fun br hf => by simp [SendNoActiveBlockchainPeersAlert, trySendList_full _ _ _ hf])
      (fun br hr => by simp [SendNoActiveBlockchainPeersAlert, trySendList_space _ _ _ hr])
      (fun br y b2 hr => by
        cases hq : br.noActiveBlockchainPeers with
        | nil => simp [ReceiveNoActiveBlockchainPeersAlert, hq] at hr
        | cons z zs =>
          simp only [ReceiveNoActiveBlockchainPeersAlert, hq, Option.some.injEq, Prod.mk.injEq] at hr
          obtain ⟨-, hb2⟩ := hr
          subst hb2
          simp [hq]) b
  · exact nonBlockingEnqueue_of statusBacklog
      (fun br => br.blockchainStatusRequest)
      (fun br => SendBlockchainStatusRequest br) ReceiveBlockchainStatusRequest
      (fun br hf => by simp [SendBlockchainStatusRequest, trySendList_full _ _ _ hf])
      (fun br hr => by simp [SendBlockchainStatusRequest, trySendList_space _ _ _ hr])
      (fun br y b2 hr => by
        cases hq : br.blockchainStatusRequest with
        | nil => simp [ReceiveBlockchainStatusRequest, hq] at hr
        | cons z zs =>
          simp only [ReceiveBlockchainStatusRequest, hq, Option.some.injEq, Prod.mk.injEq] at hr
          obtain ⟨-, hb2⟩ := hr
          subst hb2
          simp [hq]) b
  · exact nonBlockingEnqueue_of statusBacklog
      (fun br => br.blockchainStatusResponse)
      (fun br => SendBlockchainStatusResponse br eps) ReceiveBlockchainStatusResponse
      (fun br hf => by simp [SendBlockchainStatusResponse, trySendList_full _ _ _ hf])
      (fun br hr => by simp [SendBlockchainStatusResponse, trySendList_space _ _ _ hr])
      (fun br y b2 hr => by
        cases hq : br.blockchainStatusResponse with
        | nil => simp [ReceiveBlockchainStatusResponse, hq] at hr
        | cons z zs =>
          simp only [ReceiveBlockchainStatusResponse, hq, Option.some.injEq, Prod.mk.injEq] at hr
          obtain ⟨-, hb2⟩ := hr
          subst hb2
          simp [hq]) b
  · exact nonBlockingEnqueue_of statusBacklog
      (fun br => br.nodeConnectionCheckRequest)
      (fun br => SendNodeConnectionCheckRequest br) ReceiveNodeConnectionCheckRequest
      (fun br hf => by simp [SendNodeConnectionCheckRequest, trySendList_full _ _ _ hf])
      (fun br hr => by simp [SendNodeConnectionCheckRequest, trySendList_space _ _ _ hr])
      (fun br y b2 hr => by
        cases hq : br.nodeConnectionCheckRequest with
        | nil => simp [ReceiveNodeConnectionCheckRequest, hq] at hr
        | cons z zs =>
          simp only [ReceiveNodeConnectionCheckRequest, hq, Option.some.injEq, Prod.mk.injEq] at hr
          obtain ⟨-, hb2⟩ := hr
          subst hb2
          simp [hq]) b
  · exact nonBlockingEnqueue_of statusBacklog
      (fun br => br.nodeConnectionCheckResponse)
      (fun br => SendNodeConnectionCheckResponse br x) ReceiveNodeConnectionCheckResponse
      (fun br hf => by simp [SendNodeConnectionCheckResponse, trySendList_full _ _ _ hf])
      (fun br hr => by simp [SendNodeConnectionCheckResponse, trySendList_space _ _ _ hr])
      (fun br y b2 hr => by
        cases hq : br.nodeConnectionCheckResponse with
        | nil => simp [ReceiveNodeConnectionCheckResponse, hq] at hr
        | cons z zs =>
          simp only [ReceiveNodeConnectionCheckResponse, hq, Option.some.injEq, Prod.mk.injEq] at hr
          obtain ⟨-, hb2⟩ := hr
          subst hb2
          simp [hq]) b
  · exact nonBlockingEnqueue_of 1
      (fun br => br.validatorInfo)
      (fun br => SendValidatorListInfo br x) ReceiveValidatorListInfo
      (fun br hf => by simp [SendValidatorListInfo, trySendList_full _ _ _ hf])
      (fun br hr => by simp [SendValidatorListInfo, trySendList_space _ _ _ hr])
      (fun br y b2 hr => by
        cases hq : br.validatorInfo with
        | nil => simp [ReceiveValidatorListInfo, hq] at hr
        | cons z zs =>
          simp only [ReceiveValidatorListInfo, hq, Option.some.injEq, Prod.mk.injEq] at hr
          obtain ⟨-, hb2⟩ := hr
          subst hb2
          simp [hq]) b
  · exact nonBlockingEnqueue_of transactionBacklog
      (fun br => br.blockchainConnectionStatus)
      (fun br => SendBlockchainConnectionStatus br x) ReceiveBlockchainConnectionStatus
      (fun br hf => by simp [SendBlockchainConnectionStatus, trySendList_full _ _ _ hf])
      (fun br hr => by simp [SendBlockchainConnectionStatus, trySendList_space _ _ _ hr])
      (fun br y b2 hr => by
        cases hq : br.blockchainConnectionStatus with
        | nil => simp [ReceiveBlockchainConnectionStatus, hq] at hr
        | cons z zs =>
          simp only [ReceiveBlockchainConnectionStatus, hq, Option.some.injEq, Prod.mk.injEq] at hr
          obtain ⟨-, hb2⟩ := hr
          subst hb2
          simp [hq]) b
  · exact nonBlockingEnqueue_of statusBacklog
      (fun br => br.disconnectEvent)
      (fun br => SendDisconnectEvent br x) ReceiveDisconnectEvent
      (fun br hf => by simp [SendDisconnectEvent, trySendList_full _ _ _ hf])
      (fun br hr => by simp [SendDisconnectEvent, trySendList_space _ _ _ hr])
      (fun br y b2 hr => by
        cases hq : br.disconnectEvent with
        | nil => simp [ReceiveDisconnectEvent, hq] at hr
        | cons z zs =>
          simp only [ReceiveDisconnectEvent, hq, Option.some.injEq, Prod.mk.injEq] at hr
          obtain ⟨-, hb2⟩ := hr
          subst hb2
          simp [hq]) b
  · intro hfull
    simp only [UpdateNetworkConfig]
    rw [if_neg (by omega)]
  · intro hempty
    simp [UpdateNetworkConfig, hempty]
  · intro hone y b2 hr
    rcases hq : b.config with _ | ⟨z, zs⟩
    · simp [ReceiveNetworkConfigUpdates, hq] at hr
    · simp only [ReceiveNetworkConfigUpdates, hq, Option.some.injEq,
        Prod.mk.injEq] at hr
      obtain ⟨-, hb2⟩ := hr
      subst hb2
      have hz : zs = [] := by
        rw [hq] at hone
        simp only [List.length_cons] at hone
        exact List.eq_nil_of_length_eq_zero (by omega)
      simp [UpdateNetworkConfig, hz]

/-- A bridge with the announcements channel saturated and the config channel
full. -/
def saturatedBridge : BxBridge :=
  { NewBxBridge false with
      transactionHashesFromNode := List.replicate transactionHashesBacklog 0,
      config := [0] }

/-- C6 witness: on `saturatedBridge`, announcing returns `ChannelFull`, a
subsequent announce succeeds after one receive, and `UpdateNetworkConfig`
blocks; on the empty bridge both the announce and the config update
succeed. -/
theorem bridgeSendBehaviour_witness :
    AnnounceTransactionHashes saturatedBridge 5 = (.channelFull, saturatedBridge) ∧
    (AnnounceTransactionHashes
      { saturatedBridge with transactionHashesFromNode := List.replicate 999 0 } 5).1 =
      .ok ∧
    UpdateNetworkConfig saturatedBridge 7 = (.blocked, saturatedBridge) ∧
    (AnnounceTransactionHashes (NewBxBridge false) 5).1 = .ok ∧
    (UpdateNetworkConfig (NewBxBridge false) 7).1 = .ok := by
  have h := bridgeSendBehaviour saturatedBridge 5
    ⟨0, 0, .eth, [], [], [], none, 0, 0⟩ []
  have hcap : saturatedBridge.transactionHashesFromNode.length =
      transactionHashesBacklog := by
    simp [saturatedBridge, NewBxBridge]
  have hempty := bridgeSendBehaviour (NewBxBridge false) 5
    ⟨0, 0, .eth, [], [], [], none, 0, 0⟩ []
  refine ⟨h.1.1 (Nat.le_of_eq hcap.symm), ?_,
    h.2.2.2.2.2.2.2.2.2.2.2.2.2.2.1 (by simp [saturatedBridge, NewBxBridge]),
    hempty.1.2.1 (by simp [NewBxBridge, transactionHashesBacklog]), ?_⟩
  · exact h.1.2.2 hcap 0 _ rfl
  · exact (bridgeSendBehaviour (NewBxBridge false) 7
      ⟨0, 0, .eth, [], [], [], none, 0, 0⟩ []).2.2.2.2.2.2.2.2.2.2.2.2.2.2.2.1
      (by simp [NewBxBridge])

/- ## C7: SendBlockToNode routing -/

/-- C7: `SendBlockToNode` routes by block type: beacon blocks on a bridge
built without a beacon source succeed with every queue unchanged; Eth blocks
are appended to the eth queue when it has room and get `ChannelFull` when it
is saturated; unknown types are a type error. -/
theorem sendBlockToNode_routing (b : BxBridge) (blk : BxBlock) :
    (blk.blockType.isBeacon = true → b.beaconBlock = false →
      SendBlockToNode b blk = (.ok, b)) ∧
    (blk.blockType = .eth → b.ethBlocksFromBDN.length < blockBacklog →
      SendBlockToNode b blk = (.ok, { b with ethBlocksFromBDN := b.ethBlocksFromBDN ++ [blk] })) ∧
    (blk.blockType = .eth → blockBacklog ≤ b.ethBlocksFromBDN.length →
      SendBlockToNode b blk = (.channelFull, b)) ∧
    (blk.blockType = .unknown → SendBlockToNode b blk = (.typeError, b)) := by
  refine ⟨?_, ?_, ?_, ?_⟩
  · intro hb hcfg
    rcases hbt : blk.blockType <;> simp [BxBlockType.isBeacon, hbt] at hb <;>
      simp [SendBlockToNode, hbt, hcfg]
  · intro hbt hroom
    simp [SendBlockToNode, hbt, trySendList_space _ _ _ hroom]
  · intro hbt hfull
    simp [SendBlockToNode, hbt, trySendList_full _ _ _ hfull]
  · intro hbt
    simp [SendBlockToNode, hbt]

/-- C7 witness: on a beaconless bridge, sending a concrete Bellatrix block
succeeds and changes nothing, a concrete Eth block lands on the eth queue,
and an unknown-typed block is a type error. -/
theorem sendBlockToNode_routing_witness :
    SendBlockToNode (NewBxBridge false) ⟨1, 2, .beaconBellatrix, [], [], [], none, 0, 0⟩ =
      (.ok, NewBxBridge false) ∧
    SendBlockToNode (NewBxBridge false) ⟨3, 0, .eth, [], [], [], none, 0, 0⟩ =
      (.ok, { NewBxBridge false with
                ethBlocksFromBDN := [⟨3, 0, .eth, [], [], [], none, 0, 0⟩] }) ∧
    SendBlockToNode (NewBxBridge false) ⟨4, 0, .unknown, [], [], [], none, 0, 0⟩ =
      (.typeError, NewBxBridge false) := by
  refine ⟨?_, ?_, ?_⟩
  · exact (sendBlockToNode_routing (NewBxBridge false)
      ⟨1, 2, .beaconBellatrix, [], [], [], none, 0, 0⟩).1 rfl rfl
  · exact (sendBlockToNode_routing (NewBxBridge false)
      ⟨3, 0, .eth, [], [], [], none, 0, 0⟩).2.1 rfl
      (by simp [NewBxBridge, blockBacklog])
  · exact (sendBlockToNode_routing (NewBxBridge false)
      ⟨4, 0, .unknown, [], [], [], none, 0, 0⟩).2.2.2 rfl

/- ## Client handler: transaction submission (servers/clienthandler.go) -/

/-- Modelled from the spec: the network number of BSC-Mainnet (the
`bxgateway` package constants are not under src/; only distinctness from
Polygon matters here). -/
def BSCMainnetNum : Nat := 10

/-- Modelled from the spec: the network number of Polygon-Mainnet. -/
def PolygonMainnetNum : Nat := 36

/-- The transaction flag bits set by `ValidateTxFromExternalSource`. -/
structure TxFlags where
  paidTx : Bool
  localRegion : Bool
  deliverToNode : Bool
  validatorsOnly : Bool
  nextValidator : Bool
  frontRunningProtection : Bool
deriving DecidableEq, Repr

/-- `bxmessage.Tx` as the handler builds it: canonical hash, re-encoded
content, flags, fallback (ms), and the two validator wallet slots. -/
structure TxMsg where
  hash : Nat
  content : List Nat
  flags : TxFlags
  fallback : Nat
  wallet0 : Option String
  wallet1 : Option String
deriving DecidableEq, Repr

/-- One entry of `pendingBSCNextValidatorTxHashToInfo`. -/
structure PendingNextValidatorTxInfo where
  tx : TxMsg
  fallback : Nat
  timeOfRequest : Int
  source : Nat
deriving DecidableEq, Repr

/-- The pending-next-validator table, keyed by transaction hash. -/
abbrev PendingMap := List (Nat × PendingNextValidatorTxInfo)

/-- Removal of a key from the pending table (Go `delete`). -/
def pendingEraseKey (k : Nat) (m : PendingMap) : PendingMap :=
  m.filter fun e => e.1 != k

/-- Insertion into the pending table (Go map assignment). -/
def pendingInsert (k : Nat) (v : PendingNextValidatorTxInfo) (m : PendingMap) : PendingMap :=
  (k, v) :: pendingEraseKey k m

/-- Lookup in the pending table. -/
def pendingLookup (m : PendingMap) (k : Nat) : Option PendingNextValidatorTxInfo :=
  (m.find? fun e => e.1 == k).map fun e => e.2

/-- `ProcessNextValidatorTx`: only BSC and Polygon are supported; the
ordered validator map is consumed newest-first (`Newest`, then `Prev` for the
second-newest `n1`).  On BSC an accessible `n1` becomes the primary wallet;
otherwise a nonzero fallback below the BSC block duration (compared as
`uint16`) sends immediately, and anything else stashes the transaction in the
pending table and reports it pending reevaluation.  On Polygon the wallets
are set from `n1`/newest. -/
def ProcessNextValidatorTx (tx : TxMsg) (fallback : Nat)
    (nextValidatorMap : Option (List String)) (validatorStatusMap : String → Option Bool)
    (networkNum : Nat) (source : Nat) (pending : PendingMap) (now : Int)
    (bscBlockDurationMs : Nat) : Except String (TxMsg × Bool × PendingMap) :=
  if networkNum ≠ BSCMainnetNum ∧ networkNum ≠ PolygonMainnetNum then
    .error "next_validator is only supported on BSC and Polygon"
  else
    match nextValidatorMap with
    | none => .error "next validator map is nil"
    | some vmap =>
      let tx1 := { tx with fallback := fallback }
      match vmap with
      | [] => .error "gateway encountered an issue fetching the epoch block"
      | n2Wallet :: restWallets =>
        if networkNum = BSCMainnetNum then
          let n1Accessible :=
            match restWallets.head? with
            | some w => (validatorStatusMap w).getD false
            | none => false
          if n1Accessible then
            .ok ({ tx1 with wallet0 := restWallets.head? }, false, pending)
          else if fallback ≠ 0 ∧ fallback < bscBlockDurationMs % 65536 then
            .ok (tx1, false, pending)
          else
            .ok (tx1, true,
              pendingInsert tx1.hash ⟨tx1, fallback, now, source⟩ pending)
        else
          match restWallets.head? with
          | some n1w =>
            .ok ({ tx1 with wallet0 := some n1w, wallet1 := some n2Wallet }, false, pending)
          | none => .ok ({ tx1 with wallet0 := some n2Wallet }, false, pending)

/-- Decoded Ethereum transaction, the outcome of
`UnmarshalBinary`/`rlp.DecodeBytes` plus the canonical re-encoding (the
codecs are external): chain ID, canonical hash, and the RLP bytes. -/
structure EthTransaction where
  chainId : Int
  hash : Nat
  rlpEncoded : List Nat
deriving DecidableEq, Repr

/-- Outcome of the node-validation `SendTransaction` RPC (an external
collaborator): success, the tolerated `already known` failure, or a real
failure. -/
inductive NodeSendOutcome where
  | sendOk
  | alreadyKnown
  | sendFailed
deriving DecidableEq, Repr

/-- `ValidateTxFromExternalSource`: decode (external codec; `none` means both
decodes failed), enforce the chain-ID match, set the flags (`PaidTx` and
`LocalRegion` always, then exactly one of `ValidatorsOnly`, `NextValidator`,
`DeliverToNode`, plus `FrontRunningProtection` on request), route through
`ProcessNextValidatorTx` when asked, then run node validation unless the
transaction is validators-only or next-validator. -/
def ValidateTxFromExternalSource (decoded : Option EthTransaction)
    (validatorsOnly : Bool) (gatewayChainID : Int) (nextValidator : Bool)
    (fallback : Nat) (nextValidatorMap : Option (List String))
    (validatorStatusMap : String → Option Bool) (networkNum : Nat) (source : Nat)
    (nodeValidationRequested : Bool) (nodeSendResult : Option NodeSendOutcome)
    (pending : PendingMap) (now : Int) (bscBlockDurationMs : Nat)
    (frontRunningProtection : Bool) : Except String (TxMsg × Bool × PendingMap) :=
  match decoded with
  | none => .error "transaction decode failed"
  | some ethTx =>
    if ethTx.chainId ≠ 0 ∧ gatewayChainID ≠ 0 ∧ ethTx.chainId ≠ gatewayChainID then
      .error "chainID mismatch"
    else
      let txFlags : TxFlags :=
        { paidTx := true
          localRegion := true
          deliverToNode := !validatorsOnly && !nextValidator
          validatorsOnly := validatorsOnly
          nextValidator := !validatorsOnly && nextValidator
          frontRunningProtection := frontRunningProtection }
      let tx : TxMsg := { hash := ethTx.hash, content := ethTx.rlpEncoded,
                          flags := txFlags, fallback := 0,
                          wallet0 := none, wallet1 := none }
      let afterNV : Except String (TxMsg × Bool × PendingMap) :=
        if nextValidator then
          ProcessNextValidatorTx tx fallback nextValidatorMap validatorStatusMap
            networkNum source pending now bscBlockDurationMs
        else .ok (tx, false, pending)
      match afterNV with
      | .error e => .error e
      | .ok (tx2, pendingReeval, pending2) =>
        if pendingReeval then .ok (tx2, true, pending2)
        else
          if nodeValidationRequested && !tx2.flags.nextValidator
              && !tx2.flags.validatorsOnly then
            match nodeSendResult with
            | none => .error "no synced WS provider available"
            | some .sendFailed => .error "failed node validation"
            | some _ => .ok (tx2, false, pending2)
          else .ok (tx2, false, pending2)

/-- What one `handleSingleTransaction` call did: the message handed to the
node handler (if any), whether the call reported acceptance, whether the
message was submitted in the foreground, the fallback timer armed (if any),
and the pending table afterwards. -/
structure SingleTxResult where
  tx : Option TxMsg
  accepted : Bool
  submittedNow : Bool
  timerArmed : Option Nat
  pending : PendingMap
deriving DecidableEq, Repr

/-- `handleSingleTransaction`: validate, then either submit in the
foreground (not pending), or - for a pending transaction with nonzero
fallback - arm a `time.AfterFunc` timer for `fallback` ms.  A validation
failure yields no accepted transaction whether or not an RPC error is sent
back (`sendError`). -/
def handleSingleTransaction (decoded : Option EthTransaction) (validatorsOnly : Bool)
    (_sendError : Bool) (nextValidator : Bool) (fallback : Nat) (gatewayChainID : Int)
    (nextValidatorMap : Option (List String)) (validatorStatusMap : String → Option Bool)
    (networkNum : Nat) (source : Nat) (nodeValidationRequested : Bool)
    (nodeSendResult : Option NodeSendOutcome) (pending : PendingMap) (now : Int)
    (bscBlockDurationMs : Nat) (frontRunningProtection : Bool) : SingleTxResult :=
  match ValidateTxFromExternalSource decoded validatorsOnly gatewayChainID nextValidator
      fallback nextValidatorMap validatorStatusMap networkNum source
      nodeValidationRequested nodeSendResult pending now bscBlockDurationMs
      frontRunningProtection with
  | .error _ =>
    { tx := none, accepted := false, submittedNow := false, timerArmed := none,
      pending := pending }
  | .ok (tx, pendingReeval, pending2) =>
    if !pendingReeval then
      { tx := some tx, accepted := true, submittedNow := true, timerArmed := none,
        pending := pending2 }
    else if fallback ≠ 0 then
      { tx := some tx, accepted := true, submittedNow := false,
        timerArmed := some fallback, pending := pending2 }
    else
      { tx := some tx, accepted := true, submittedNow := false, timerArmed := none,
        pending := pending2 }

/-- The body of the fallback `time.AfterFunc`: under the pending lock, if the
entry still exists, delete it, clear the `NextValidator` flag, reset the
fallback, and submit normally; otherwise do nothing. -/
def fireFallbackTimer (pending : PendingMap) (tx : TxMsg) : PendingMap × Option TxMsg :=
  match pendingLookup pending tx.hash with
  | some _ =>
    (pendingEraseKey tx.hash pending,
      some { tx with flags := { tx.flags with nextValidator := false }, fallback := 0 })
  | none => (pending, none)

/-- The `blxr_batch_tx` loop of `handlerObj.Handle`: every transaction goes
through `handleSingleTransaction` with `sendError = false`,
`nextValidator = false`, `fallback = 0`, nil validator maps,
`nodeValidation = false` and `frontRunningProtection = false`, regardless of
the request payload. -/
def handleBatchTx (transactions : List (Option EthTransaction)) (validatorsOnly : Bool)
    (gatewayChainID : Int) (networkNum : Nat) (source : Nat)
    (nodeSendResult : Option NodeSendOutcome) (pending : PendingMap) (now : Int)
    (bscBlockDurationMs : Nat) : List SingleTxResult :=
  transactions.map fun t =>
    handleSingleTransaction t validatorsOnly false false 0 gatewayChainID none
      (fun _ => none) networkNum source false nodeSendResult pending now
      bscBlockDurationMs false

/- ## C8: BSC next-validator routing with an inaccessible n1 -/

/-- On BSC with an inaccessible (or absent) second-newest validator,
`ProcessNextValidatorTx` sends immediately when `0 < fallback < duration` and
stashes the transaction into the pending table otherwise - including
`fallback = 0`. -/
theorem processNextValidatorTx_bsc_inaccessible
    (tx : TxMsg) (fallback : Nat) (n2w : String) (restW : List String)
    (status : String → Option Bool)
    (hn1 : ∀ w, restW.head? = some w → (status w).getD false = false)
    (source : Nat) (pending : PendingMap) (now : Int) (dur : Nat) :
    (fallback ≠ 0 → fallback < dur % 65536 →
      ProcessNextValidatorTx tx fallback (some (n2w :: restW)) status BSCMainnetNum
        source pending now dur = .ok ({ tx with fallback := fallback }, false, pending)) ∧
    (¬(fallback ≠ 0 ∧ fallback < dur % 65536) →
      ProcessNextValidatorTx tx fallback (some (n2w :: restW)) status BSCMainnetNum
        source pending now dur =
        .ok ({ tx with fallback := fallback }, true,
          pendingInsert tx.hash ⟨{ tx with fallback := fallback }, fallback, now, source⟩
            pending)) := by
  cases hh : restW.head? with
  | none =>
    constructor
    · intro h1 h2
      simp [ProcessNextValidatorTx, BSCMainnetNum, PolygonMainnetNum, hh, h1, h2]
    · intro hcond
      simp [ProcessNextValidatorTx, BSCMainnetNum, PolygonMainnetNum, hh, hcond]
  | some w =>
    have hw := hn1 w hh
    constructor
    · intro h1 h2
      simp [ProcessNextValidatorTx, BSCMainnetNum, PolygonMainnetNum, hh, hw, h1, h2]
    · intro hcond
      simp [ProcessNextValidatorTx, BSCMainnetNum, PolygonMainnetNum, hh, hw, hcond]

/-- C8 counterexample: a BSC next-validator transaction whose nearest
validator is not accessible and whose fallback is 0 - which is strictly less
than the 3000 ms BSC block duration - is stashed in the pending table and is
not submitted immediately, contradicting the claimed `fallback < duration`
behaviour. -/
theorem nextValidatorFallback_claim_false :
    (handleSingleTransaction (some ⟨0, 42, [1]⟩) false true true 0 0
        (some ["w2", "w1"]) (fun _ => none) BSCMainnetNum 0 false (some .sendOk)
        [] 0 3000 false).submittedNow = false ∧
    (handleSingleTransaction (some ⟨0, 42, [1]⟩) false true true 0 0
        (some ["w2", "w1"]) (fun _ => none) BSCMainnetNum 0 false (some .sendOk)
        [] 0 3000 false).pending =
      [(42, ⟨⟨42, [1], ⟨true, true, false, false, true, false⟩, 0, none, none⟩, 0, 0, 0⟩)] ∧
    (0 : Nat) < 3000 :=
  ⟨rfl, rfl, by decide⟩

/-- C8 (amended): for a BSC-Mainnet next-validator transaction whose nearest
validator wallet is not marked accessible: when `0 < fallback < duration`
(compared as `uint16`) the transaction is not stashed and is submitted in the
foreground at once; when `fallback ≥ duration` it is stashed and a timer for
`fallback` ms is armed; when `fallback = 0` it is stashed with no timer.  The
timer body, if the entry still exists, removes it and submits the transaction
with the `NextValidator` flag cleared and fallback reset. -/
theorem nextValidatorTxRouting
    (ethTx : EthTransaction) (gatewayChainID : Int)
    (hcid : ethTx.chainId = 0 ∨ gatewayChainID = 0 ∨ ethTx.chainId = gatewayChainID)
    (n2w : String) (restW : List String) (status : String → Option Bool)
    (hn1 : ∀ w, restW.head? = some w → (status w).getD false = false)
    (sendErr nodeVal frontRun : Bool) (env : Option NodeSendOutcome)
    (fallback dur : Nat) (hdur : 0 < dur % 65536)
    (pending : PendingMap) (now : Int) (source : Nat) :
    (fallback ≠ 0 → fallback < dur % 65536 →
      handleSingleTransaction (some ethTx) false sendErr true fallback gatewayChainID
          (some (n2w :: restW)) status BSCMainnetNum source nodeVal env pending now
          dur frontRun =
        { tx := some ⟨ethTx.hash, ethTx.rlpEncoded,
            ⟨true, true, false, false, true, frontRun⟩, fallback, none, none⟩,
          accepted := true, submittedNow := true, timerArmed := none,
          pending := pending }) ∧
    (dur % 65536 ≤ fallback →
      handleSingleTransaction (some ethTx) false sendErr true fallback gatewayChainID
          (some (n2w :: restW)) status BSCMainnetNum source nodeVal env pending now
          dur frontRun =
        { tx := some ⟨ethTx.hash, ethTx.rlpEncoded,
            ⟨true, true, false, false, true, frontRun⟩, fallback, none, none⟩,
          accepted := true, submittedNow := false, timerArmed := some fallback,
          pending := pendingInsert ethTx.hash
            ⟨⟨ethTx.hash, ethTx.rlpEncoded,
              ⟨true, true, false, false, true, frontRun⟩, fallback, none, none⟩,
             fallback, now, source⟩ pending }) ∧
    (fallback = 0 →
      handleSingleTransaction (some ethTx) false sendErr true fallback gatewayChainID
          (some (n2w :: restW)) status BSCMainnetNum source nodeVal env pending now
          dur frontRun =
        { tx := some ⟨ethTx.hash, ethTx.rlpEncoded,
            ⟨true, true, false, false, true, frontRun⟩, fallback, none, none⟩,
          accepted := true, submittedNow := false, timerArmed := none,
          pending := pendingInsert ethTx.hash
            ⟨⟨ethTx.hash, ethTx.rlpEncoded,
              ⟨true, true, false, false, true, frontRun⟩, fallback, none, none⟩,
             fallback, now, source⟩ pending }) ∧
    (∀ pm : PendingMap, ∀ info, pendingLookup pm ethTx.hash = some info →
      fireFallbackTimer pm ⟨ethTx.hash, ethTx.rlpEncoded,
          ⟨true, true, false, false, true, frontRun⟩, fallback, none, none⟩ =
        (pendingEraseKey ethTx.hash pm,
         some ⟨ethTx.hash, ethTx.rlpEncoded,
            ⟨true, true, false, false, false, frontRun⟩, 0, none, none⟩)) := by
  have hchain : ¬(ethTx.chainId ≠ 0 ∧ gatewayChainID ≠ 0 ∧
      ethTx.chainId ≠ gatewayChainID) := by
    rcases hcid with h | h | h <;> simp [h]
  have hproc := processNextValidatorTx_bsc_inaccessible
    ⟨ethTx.hash, ethTx.rlpEncoded, ⟨true, true, false, false, true, frontRun⟩,
      0, none, none⟩ fallback n2w restW status hn1 source pending now dur
  refine ⟨?_, ?_, ?_, ?_⟩
  · intro h1 h2
    have hp := hproc.1 h1 h2
    simp [handleSingleTransaction, ValidateTxFromExternalSource, hchain, hp]
  · intro hle
    have hp := hproc.2 (by omega)
    have hne : fallback ≠ 0 := by omega
    simp [handleSingleTransaction, ValidateTxFromExternalSource, hchain, hp, hne]
  · intro h0
    subst h0
    have hp := hproc.2 (by simp)
    simp [handleSingleTransaction, ValidateTxFromExternalSource, hchain, hp]
  · intro pm info hlook
    simp only [fireFallbackTimer, hlook]

/-- C8 witness: with the 3000 ms BSC block duration, an inaccessible nearest
validator, fallback 100 is sent at once; fallback 5000 is stashed with a
5000 ms timer, and firing that timer removes the entry and yields the
transaction with `NextValidator` cleared. -/
theorem nextValidatorTxRouting_witness :
    handleSingleTransaction (some ⟨0, 42, [1]⟩) false true true 100 0
        (some ["w2", "w1"]) (fun _ => none) BSCMainnetNum 0 false (some .sendOk)
        [] 0 3000 false =
      { tx := some ⟨42, [1], ⟨true, true, false, false, true, false⟩, 100, none, none⟩,
        accepted := true, submittedNow := true, timerArmed := none, pending := [] } ∧
    handleSingleTransaction (some ⟨0, 42, [1]⟩) false true true 5000 0
        (some ["w2", "w1"]) (fun _ => none) BSCMainnetNum 0 false (some .sendOk)
        [] 0 3000 false =
      { tx := some ⟨42, [1], ⟨true, true, false, false, true, false⟩, 5000, none, none⟩,
        accepted := true, submittedNow := false, timerArmed := some 5000,
        pending := pendingInsert 42
          ⟨⟨42, [1], ⟨true, true, false, false, true, false⟩, 5000, none, none⟩,
           5000, 0, 0⟩ [] } ∧
    fireFallbackTimer
        (pendingInsert 42
          ⟨⟨42, [1], ⟨true, true, false, false, true, false⟩, 5000, none, none⟩,
           5000, 0, 0⟩ [])
        ⟨42, [1], ⟨true, true, false, false, true, false⟩, 5000, none, none⟩ =
      (pendingEraseKey 42
        (pendingInsert 42
          ⟨⟨42, [1], ⟨true, true, false, false, true, false⟩, 5000, none, none⟩,
           5000, 0, 0⟩ []),
       some ⟨42, [1], ⟨true, true, false, false, false, false⟩, 0, none, none⟩) := by
  have hn1 : ∀ w, (["w1"] : List String).head? = some w →
      (((fun _ => none : String → Option Bool)) w).getD false = false := by
    intro w _
    rfl
  refine ⟨?_, ?_, ?_⟩
  · exact (nextValidatorTxRouting ⟨0, 42, [1]⟩ 0 (Or.inl rfl) "w2" ["w1"]
      (fun _ => none) hn1 true false false (some .sendOk) 100 3000 (by decide)
      [] 0 0).1 (by decide) (by decide)
  · exact (nextValidatorTxRouting ⟨0, 42, [1]⟩ 0 (Or.inl rfl) "w2" ["w1"]
      (fun _ => none) hn1 true false false (some .sendOk) 5000 3000 (by decide)
      [] 0 0).2.1 (by decide)
  · exact (nextValidatorTxRouting ⟨0, 42, [1]⟩ 0 (Or.inl rfl) "w2" ["w1"]
      (fun _ => none) hn1 true false false (some .sendOk) 5000 3000 (by decide)
      [] 0 0).2.2.2 _ _ rfl

/- ## C9: unsubscribe replies -/

/-- Modelled from the spec: `FeedManager.Unsubscribe` (the feed manager is
not under src/) removes the subscription with the given UUID and reports an
error when no such subscription is registered.  UUIDs are modelled as `Nat`
and the registry as the list of registered subscription IDs. -/
def fmUnsubscribe (registry : List Nat) (uid : Nat) : Except String (List Nat) :=
  if uid ∈ registry then .ok (registry.filter fun x => x != uid)
  else .error "subscription not found"

/-- One message sent back on the JSON-RPC connection by the unsubscribe
branch of `handlerObj.Handle`: an error reply or a result string. -/
inductive RPCReply where
  | errorReply
  | result (s : String)
deriving DecidableEq, Repr

/-- The `RPCUnsubscribe` branch of `handlerObj.Handle`: missing params or a
parameter count other than one send an `InvalidParams` error; otherwise
`FeedManager.Unsubscribe` runs, a failure replies `"false"` and - because
the branch then falls through - `"true"` is replied as well, while a success
replies only `"true"`. -/
def handleUnsubscribe (registry : List Nat) (params : Option (List Nat)) :
    List RPCReply × List Nat :=
  match params with
  | none => ([.errorReply], registry)
  | some ps =>
    if ps.length ≠ 1 then ([.errorReply], registry)
    else
      let uid := ps.headD 0
      match fmUnsubscribe registry uid with
      | .ok registry2 => ([.result "true"], registry2)
      | .error _ => ([.result "false", .result "true"], registry)

/-- C9 counterexample: unsubscribing an unknown UUID sends two replies,
`"false"` and then `"true"` - not the single `"true"` reply the claim
states (a JSON-RPC client resolves the request with the first reply,
`"false"`). -/
theorem unsubscribeUnknown_claim_false :
    handleUnsubscribe [] (some [7]) = ([.result "false", .result "true"], []) ∧
    handleUnsubscribe [] (some [7]) ≠ ([.result "true"], []) :=
  ⟨rfl, by decide⟩

/-- C9 (amended): a one-parameter unsubscribe of an unregistered UUID sends
the two non-error replies `"false"` then `"true"` and leaves the registry
unchanged; unsubscribing a registered UUID removes it and replies `"true"`
only.  No JSON-RPC error is sent in either case. -/
theorem unsubscribeReplies (registry : List Nat) (uid : Nat) :
    (uid ∉ registry →
      handleUnsubscribe registry (some [uid]) =
        ([.result "false", .result "true"], registry)) ∧
    (uid ∈ registry →
      handleUnsubscribe registry (some [uid]) =
        ([.result "true"], registry.filter fun x => x != uid)) := by
  constructor
  · intro h
    simp [handleUnsubscribe, fmUnsubscribe, h]
  · intro h
    simp [handleUnsubscribe, fmUnsubscribe, h]

/-- C9 witness: with registry `[3]`, unsubscribing `7` replies
`"false", "true"` keeping the registry, and unsubscribing `3` replies
`"true"` and empties it. -/
theorem unsubscribeReplies_witness :
    handleUnsubscribe [3] (some [7]) = ([.result "false", .result "true"], [3]) ∧
    handleUnsubscribe [3] (some [3]) = ([.result "true"], []) := by
  refine ⟨(unsubscribeReplies [3] 7).1 (by decide), ?_⟩
  have h := (unsubscribeReplies [3] 3).2 (by decide)
  rw [h]
  rfl

/- ## C10: blxr_batch_tx pipeline flags -/

/-- C10: every transaction in a `blxr_batch_tx` request goes through the
single-transaction pipeline with `nextValidator = false`, `fallback = 0`,
`nodeValidation = false` and `frontRunningProtection = false`; consequently
no fallback timer is armed, the pending-next-validator table is untouched,
and every accepted transaction is submitted in the foreground carrying
exactly `PaidTx`, `LocalRegion`, and `ValidatorsOnly` when requested or
`DeliverToNode` otherwise - never `NextValidator` or
`FrontRunningProtection`. -/
theorem batchTxPipeline (transactions : List (Option EthTransaction))
    (validatorsOnly : Bool) (gatewayChainID : Int) (networkNum : Nat) (source : Nat)
    (env : Option NodeSendOutcome) (pending : PendingMap) (now : Int) (dur : Nat) :
    ∀ r ∈ handleBatchTx transactions validatorsOnly gatewayChainID networkNum source
        env pending now dur,
      r.timerArmed = none ∧ r.pending = pending ∧
      (r.accepted = true → r.submittedNow = true ∧
        ∃ tx, r.tx = some tx ∧ tx.fallback = 0 ∧
          tx.flags = ⟨true, true, !validatorsOnly, validatorsOnly, false, false⟩) := by
  intro r hr
  simp only [handleBatchTx, List.mem_map] at hr
  obtain ⟨t, ht, rfl⟩ := hr
  cases t with
  | none =>
    refine ⟨rfl, rfl, fun hacc => ?_⟩
    exact absurd hacc (by simp [handleSingleTransaction, ValidateTxFromExternalSource])
  | some ethTx =>
    by_cases hchain : ethTx.chainId ≠ 0 ∧ gatewayChainID ≠ 0 ∧
        ethTx.chainId ≠ gatewayChainID
    · have hres : handleSingleTransaction (some ethTx) validatorsOnly false false 0
          gatewayChainID none (fun _ => none) networkNum source false env pending now
          dur false =
          { tx := none, accepted := false, submittedNow := false, timerArmed := none,
            pending := pending } := by
        simp [handleSingleTransaction, ValidateTxFromExternalSource, hchain]
      rw [hres]
      exact ⟨rfl, rfl, fun hacc => Bool.noConfusion hacc⟩
    · have hres : handleSingleTransaction (some ethTx) validatorsOnly false false 0
          gatewayChainID none (fun _ => none) networkNum source false env pending now
          dur false =
          { tx := some ⟨ethTx.hash, ethTx.rlpEncoded,
              ⟨true, true, !validatorsOnly, validatorsOnly, false, false⟩,
              0, none, none⟩,
            accepted := true, submittedNow := true, timerArmed := none,
            pending := pending } := by
        simp [handleSingleTransaction, ValidateTxFromExternalSource, hchain]
      rw [hres]
      exact ⟨rfl, rfl, fun _ => ⟨rfl, _, rfl, rfl, rfl⟩⟩

/-- C10 witness: one concrete batch transaction is accepted, submitted in
the foreground, flagged `PaidTx | LocalRegion | DeliverToNode`, with the
pending table untouched and no timer. -/
theorem batchTxPipeline_witness :
    (handleSingleTransaction (some ⟨0, 5, [9]⟩) false false false 0 0 none
        (fun _ => none) 10 0 false (some .sendOk) [] 0 3000 false).timerArmed =
      none ∧
    (handleSingleTransaction (some ⟨0, 5, [9]⟩) false false false 0 0 none
        (fun _ => none) 10 0 false (some .sendOk) [] 0 3000 false).pending = [] ∧
    (handleSingleTransaction (some ⟨0, 5, [9]⟩) false false false 0 0 none
        (fun _ => none) 10 0 false (some .sendOk) [] 0 3000 false).accepted = true ∧
    (handleSingleTransaction (some ⟨0, 5, [9]⟩) false false false 0 0 none
        (fun _ => none) 10 0 false (some .sendOk) [] 0 3000 false).submittedNow =
      true := by
  have h := batchTxPipeline [some ⟨0, 5, [9]⟩] false 0 10 0 (some .sendOk) [] 0 3000
    (handleSingleTransaction (some ⟨0, 5, [9]⟩) false false false 0 0 none
      (fun _ => none) 10 0 false (some .sendOk) [] 0 3000 false)
    (by simp [handleBatchTx])
  exact ⟨h.1, h.2.1, rfl, (h.2.2 rfl).1⟩
